import Mathlib

/-!
Shallow embedding, in Lean 4, of the cost/validation/permission logic of the
TruckFinalProyect backend (a FastAPI route-optimization service), together
with theorems checking the natural-language specification against it.

Numeric conventions: Python `float` and `decimal.Decimal` values are both
modelled as `ℚ`; where the distinction is operationally visible (mixing a
`Decimal` with a `float` in arithmetic raises `TypeError` in Python) the
embedding makes the failure explicit with `Except`.  Strings are Lean
`String`s; Python functions that raise on bad input are modelled with
`Option`/`Except`.
-/

namespace TruckProof

/-! ## Data staleness (src/backend/app/services/data_staleness_service.py) -/

/-- The `DataStalenessLevel` enum of the staleness service. -/
inductive DataStalenessLevel
  | fresh
  | warning
  | stale
  | critical
deriving DecidableEq, Repr

/-- One entry of `DataStalenessService.thresholds`: the warning / stale /
critical day counts for a data type. -/
structure StalenessThresholds where
  warning : ℤ
  stale : ℤ
  critical : ℤ
deriving DecidableEq, Repr

/-- `self.thresholds["fuel_price"]` from `DataStalenessService.__init__`. -/
def fuelPriceThresholds : StalenessThresholds := { warning := 15, stale := 30, critical := 60 }

/-- `self.thresholds["toll"]` from `DataStalenessService.__init__`. -/
def tollThresholds : StalenessThresholds := { warning := 90, stale := 180, critical := 365 }

/-- `self.thresholds.get(data_type, self.thresholds["fuel_price"])`:
unknown data types fall back to the fuel-price thresholds. -/
def thresholdsFor (dataType : String) : StalenessThresholds :=
  if dataType = "fuel_price" then fuelPriceThresholds
  else if dataType = "toll" then tollThresholds
  else fuelPriceThresholds

/-- `DataStalenessService._get_staleness_level`: compare the age in days
against the thresholds for the data type, highest threshold first. -/
def getStalenessLevel (dataType : String) (daysOld : ℤ) : DataStalenessLevel :=
  let t := thresholdsFor dataType
  if daysOld ≥ t.critical then .critical
  else if daysOld ≥ t.stale then .stale
  else if daysOld ≥ t.warning then .warning
  else .fresh

/-! ## Permissions (src/backend/app/auth/permissions.py) -/

/-- The `Permission` enum: every permission atom defined by the system. -/
inductive Permission
  | create_user | read_user | update_user | delete_user
  | create_company | read_company | update_company | delete_company
  | create_vehicle | read_vehicle | update_vehicle | delete_vehicle
  | calculate_route | read_route | delete_route
  | create_fuel_price | read_fuel_price | update_fuel_price | delete_fuel_price
  | create_toll | read_toll | update_toll | delete_toll
  | generate_report
  | admin_panel | view_system_stats | manage_system_data
deriving DecidableEq, Fintype, Repr

/-- The `UserRole` enum from src/backend/app/models/user.py. -/
inductive UserRole
  | admin
  | operator
deriving DecidableEq, Repr

/-- `ROLE_PERMISSIONS[UserRole.ADMIN]`, in source order. -/
def adminPermissions : List Permission :=
  [ .create_user, .read_user, .update_user, .delete_user,
    .create_company, .read_company, .update_company, .delete_company,
    .create_vehicle, .read_vehicle, .update_vehicle, .delete_vehicle,
    .calculate_route, .read_route, .delete_route,
    .create_fuel_price, .read_fuel_price, .update_fuel_price, .delete_fuel_price,
    .create_toll, .read_toll, .update_toll, .delete_toll,
    .generate_report,
    .admin_panel, .view_system_stats, .manage_system_data ]

/-- `ROLE_PERMISSIONS[UserRole.OPERATOR]`, in source order. -/
def operatorPermissions : List Permission :=
  [ .read_user, .update_user,
    .read_company,
    .create_vehicle, .read_vehicle, .update_vehicle, .delete_vehicle,
    .calculate_route, .read_route,
    .read_fuel_price,
    .read_toll,
    .generate_report ]

/-- `get_user_permissions`: look the role up in `ROLE_PERMISSIONS`
(membership in the Python set is membership in the listed elements). -/
def get_user_permissions (role : UserRole) : List Permission :=
  match role with
  | .admin => adminPermissions
  | .operator => operatorPermissions

/-- `has_permission(role, permission)`. -/
def has_permission (role : UserRole) (p : Permission) : Bool :=
  (get_user_permissions role).contains p

/-! ## Vehicles (src/backend/app/models/vehicle.py) -/

/-- The `FuelType` enum. -/
inductive FuelType
  | diesel_500
  | diesel_premium
  | gasoline
deriving DecidableEq, Repr

/-- `FuelType.value`, the string payload of the enum member. -/
def FuelType.value : FuelType → String
  | .diesel_500 => "diesel_500"
  | .diesel_premium => "diesel_premium"
  | .gasoline => "gasoline"

/-- The fields of the `Vehicle` model that the verified logic reads.
`fuel_consumption` is `Numeric(5,2)` (L/100km, modelled as `ℚ`);
`max_weight` is a nullable `Integer` (kg). -/
structure Vehicle where
  model : String
  fuel_consumption : ℚ
  fuel_type : FuelType
  max_weight : Option ℤ
deriving DecidableEq, Repr

/-- `Vehicle.calculate_fuel_cost`: returns 0 when `distance_km <= 0` or
`fuel_price_per_liter <= 0`, otherwise `(distance_km / 100) *
fuel_consumption * fuel_price_per_liter`. -/
def Vehicle.calculate_fuel_cost (v : Vehicle) (distance_km fuel_price_per_liter : ℚ) : ℚ :=
  if distance_km ≤ 0 ∨ fuel_price_per_liter ≤ 0 then 0
  else
    let fuel_needed := (distance_km / 100) * v.fuel_consumption
    fuel_needed * fuel_price_per_liter

/-! ## Route optimization service
(src/backend/app/services/route_optimization_service.py) -/

/-- The `FuelCostInfo` dataclass. -/
structure FuelCostInfo where
  distance_km : ℚ
  fuel_consumption_per_100km : ℚ
  fuel_needed_liters : ℚ
  fuel_price_per_liter : ℚ
  total_fuel_cost : ℚ
  fuel_type : String
deriving DecidableEq, Repr

/-- `RouteOptimizationService._calculate_fuel_cost`:
`fuel_needed_liters = (distance_km / 100) * vehicle.fuel_consumption`,
`total_fuel_cost = fuel_needed_liters * fuel_price`.  (The Python detour
through `Decimal(str(float(...)))` is the identity on the values involved,
both being modelled as `ℚ`.) -/
def calculate_fuel_cost (distance_km : ℚ) (vehicle : Vehicle) (fuel_price : ℚ) : FuelCostInfo :=
  let fuel_needed_liters := (distance_km / 100) * vehicle.fuel_consumption
  { distance_km := distance_km
    fuel_consumption_per_100km := vehicle.fuel_consumption
    fuel_needed_liters := fuel_needed_liters
    fuel_price_per_liter := fuel_price
    total_fuel_cost := fuel_needed_liters * fuel_price
    fuel_type := vehicle.fuel_type.value }

/-- ASCII lower-casing of one character; embeds what Python's `str.lower()`
does on the ASCII range (the license plates, models and patterns the service
handles are ASCII). -/
def pyLowerChar (c : Char) : Char :=
  if 65 ≤ c.toNat ∧ c.toNat ≤ 90 then Char.ofNat (c.toNat + 32) else c

/-- `str.lower()` on an ASCII string. -/
def pyLower (s : String) : String := String.mk (s.toList.map pyLowerChar)

/-- Substring containment on character lists (Python's `pat in s`). -/
def listIsInfix (pat : List Char) : List Char → Bool
  | [] => pat.isEmpty
  | c :: cs => pat.isPrefixOf (c :: cs) || listIsInfix pat cs

/-- Python's `pat in s` for strings. -/
def strContains (s pat : String) : Bool := listIsInfix pat.toList s.toList

/-- The guard `vehicle.max_weight and vehicle.max_weight > 3500` of
`_get_vehicle_category`: a `None` or zero `max_weight` is falsy in Python, so
the branch is taken only for a present, non-zero weight strictly above
3500 kg. -/
def truckCond (vehicle : Vehicle) : Bool :=
  match vehicle.max_weight with
  | none => false
  | some w => decide (w ≠ 0) && decide (w > 3500)

/-- The guard `"moto" in vehicle.model.lower() or "scooter" in
vehicle.model.lower()` of `_get_vehicle_category`. -/
def motoCond (vehicle : Vehicle) : Bool :=
  strContains (pyLower vehicle.model) "moto" || strContains (pyLower vehicle.model) "scooter"

/-- `RouteOptimizationService._get_vehicle_category`. -/
def get_vehicle_category (vehicle : Vehicle) : String :=
  if truckCond vehicle then "truck"
  else if motoCond vehicle then "motorcycle"
  else "car"

/-- The fields of the OSRM `Route` dataclass read by the optimization logic
(`distance` in meters, `duration` in seconds). -/
structure OSRMRoute where
  distance : ℚ
  duration : ℚ
  geometry : String
deriving DecidableEq, Repr

/-- The `RouteCostBreakdown` dataclass (the `tolls` detail list is omitted;
only its summed cost `total_toll_cost` feeds the verified logic). -/
structure RouteCostBreakdown where
  fuel_cost : FuelCostInfo
  total_toll_cost : ℚ
  total_cost : ℚ
  savings_vs_fastest : Option ℚ
deriving DecidableEq, Repr

/-- The `OptimizedRoute` dataclass (waypoints/geometry bookkeeping omitted). -/
structure OptimizedRoute where
  osrm_route : OSRMRoute
  cost_breakdown : RouteCostBreakdown
  route_type : String
  estimated_savings : Option ℚ
deriving DecidableEq, Repr

/-- The route-construction loop of `optimize_route`: route 0 is labeled
`fastest`, route `i > 0` is labeled `alternative_i`. -/
def buildOptimizedRoutes (routeCosts : List (OSRMRoute × RouteCostBreakdown)) :
    List OptimizedRoute :=
  routeCosts.mapIdx fun i rc =>
    { osrm_route := rc.1
      cost_breakdown := rc.2
      route_type := if i = 0 then "fastest" else "alternative_" ++ toString i
      estimated_savings := none }

/-- Index of the first minimum of a list of rationals: Python's
`min(..., key=...)` keeps the earliest element among ties. -/
def firstMinIdx : List ℚ → ℕ
  | [] => 0
  | [_] => 0
  | x :: y :: rest =>
    let k := firstMinIdx (y :: rest)
    if (y :: rest).getD k 0 < x then k + 1 else 0

/-- The outcome of the selection stage of `optimize_route`: the full route
list, the position of the recommended route within it, and `total_savings`. -/
structure RouteOptimizationResult where
  routes : List OptimizedRoute
  recommended_idx : ℕ
  total_savings : ℚ
deriving DecidableEq, Repr

/-- The selection stage of `optimize_route` (after the OSRM alternatives and
their cost breakdowns are known; an empty alternative list raises earlier).
`min(optimized_routes, key=total_cost)` returns the object at the first
index attaining the minimal cost, whose `route_type` is then mutated to
`cheapest`.  The Python comparisons `recommended_route != fastest_route` and
`route != recommended_route` are dataclass equality tests; they coincide
with index (in)equality here: `min` picks the first minimum, so a
recommended index ≠ 0 forces a total cost strictly below route 0's, and
after relabeling the recommended route's `route_type` (`"cheapest"`) differs
from every other route's (`"fastest"` / `"alternative_i"`). -/
def optimize_route_select (routeCosts : List (OSRMRoute × RouteCostBreakdown)) :
    Option RouteOptimizationResult :=
  match routeCosts with
  | [] => none
  | rc0 :: _ =>
    let routes := buildOptimizedRoutes routeCosts
    let rIdx := firstMinIdx (routes.map (fun r => r.cost_breakdown.total_cost))
    let routes := routes.mapIdx fun i r =>
      if i = rIdx then { r with route_type := "cheapest" } else r
    let fastestCost := rc0.2.total_cost
    if rIdx ≠ 0 then
      let totalSavings := fastestCost -
        ((routeCosts.map (fun rc => rc.2.total_cost)).getD rIdx 0)
      let routes := routes.mapIdx fun i r =>
        if i = rIdx then { r with estimated_savings := some totalSavings }
        else
          let cb := r.cost_breakdown
          { r with cost_breakdown :=
            { cb with savings_vs_fastest := some (fastestCost - cb.total_cost) } }
      some { routes := routes, recommended_idx := rIdx, total_savings := totalSavings }
    else
      some { routes := routes, recommended_idx := rIdx, total_savings := 0 }

/-! ## Route comparison service
(src/backend/app/services/route_comparison_service.py)

`OptimizedRoute` values flow in from the optimization service; `Decimal`
fields (costs) and `float` fields (durations, distances) are both `ℚ` here,
but mixing them in Python arithmetic raises `TypeError`, which the embedding
surfaces through `Except` at the one place it happens (`_analyze_savings`).
The f-string insight messages that interpolate numbers are abstracted to
fixed strings; every branch condition is kept exactly. -/

/-- The `OptimizationCriteria` enum. -/
inductive OptimizationCriteria
  | total_cost | fuel_cost | time | distance | toll_avoidance | balanced
deriving DecidableEq, Repr

/-- The `RouteRanking` enum. -/
inductive RouteRanking
  | best | good | acceptable | poor
deriving DecidableEq, Repr

/-- The `RouteScore` dataclass. -/
structure RouteScore where
  total_score : ℚ
  cost_score : ℚ
  time_score : ℚ
  distance_score : ℚ
  toll_score : ℚ
  ranking : RouteRanking
deriving DecidableEq, Repr

/-- The `RouteComparison` dataclass. -/
structure RouteComparison where
  route_a_id : String
  route_b_id : String
  cost_difference : ℚ
  time_difference : ℚ
  distance_difference : ℚ
  toll_difference : ℚ
  recommendation : String
  confidence : ℚ
deriving DecidableEq, Repr

/-- The `SavingsAnalysis` dataclass. -/
structure SavingsAnalysis where
  recommended_route_id : String
  baseline_route_id : String
  absolute_savings : ℚ
  percentage_savings : ℚ
  time_trade_off : ℚ
  distance_trade_off : ℚ
  savings_per_minute : ℚ
  savings_per_km : ℚ
deriving DecidableEq, Repr

/-- The `OptimizationSummary` dataclass (`recommended_route` is reported by
its position in the analyzed list). -/
structure OptimizationSummary where
  total_routes_analyzed : ℕ
  recommended_idx : ℕ
  route_scores : List RouteScore
  route_comparisons : List RouteComparison
  savings_analysis : SavingsAnalysis
  optimization_insights : List String
  warnings : List String
deriving DecidableEq, Repr

/-- The truthy keys read from the `user_preferences` dict. -/
structure UserPreferences where
  prioritize_cost : Bool := false
  prioritize_time : Bool := false
  avoid_tolls : Bool := false
deriving DecidableEq, Repr

/-- One weight set of `_calculate_weighted_score`. -/
structure CriteriaWeights where
  cost : ℚ
  time : ℚ
  distance : ℚ
  toll : ℚ
deriving DecidableEq, Repr

/-- The `weights` table of `_calculate_weighted_score` (built fresh on every
call, so the in-place preference adjustments never leak between calls). -/
def defaultWeights : OptimizationCriteria → CriteriaWeights
  | .total_cost => ⟨0.6, 0.2, 0.1, 0.1⟩
  | .fuel_cost => ⟨0.7, 0.2, 0.1, 0⟩
  | .time => ⟨0.2, 0.6, 0.1, 0.1⟩
  | .distance => ⟨0.2, 0.2, 0.6, 0⟩
  | .toll_avoidance => ⟨0.2, 0.2, 0.1, 0.5⟩
  | .balanced => ⟨0.3, 0.3, 0.2, 0.2⟩

/-- The user-preference adjustments of `_calculate_weighted_score`, in
source order. -/
def adjustWeights (w : CriteriaWeights) (prefs : UserPreferences) : CriteriaWeights :=
  let w := if prefs.prioritize_cost then
    { w with cost := w.cost + 0.1, time := w.time - 0.05, distance := w.distance - 0.05 }
    else w
  let w := if prefs.prioritize_time then
    { w with time := w.time + 0.1, cost := w.cost - 0.05, distance := w.distance - 0.05 }
    else w
  if prefs.avoid_tolls then
    { w with toll := w.toll + 0.2, cost := w.cost - 0.1, time := w.time - 0.1 }
  else w

/-- `_normalize_score`: 0 when max = min, else linear 0-1 normalization. -/
def normalize_score (value min_val max_val : ℚ) : ℚ :=
  if max_val = min_val then 0 else (value - min_val) / (max_val - min_val)

/-- `_determine_ranking`. -/
def determine_ranking (total_score : ℚ) : RouteRanking :=
  if total_score ≤ 0.25 then .best
  else if total_score ≤ 0.5 then .good
  else if total_score ≤ 0.75 then .acceptable
  else .poor

/-- Python `min` over a non-empty list of values. -/
def listMin : List ℚ → ℚ
  | [] => 0
  | x :: xs => xs.foldl min x

/-- Python `max` over a non-empty list of values. -/
def listMax : List ℚ → ℚ
  | [] => 0
  | x :: xs => xs.foldl max x

/-- Index of the first maximum (Python `max` keeps the earliest among ties). -/
def firstMaxIdx : List ℚ → ℕ
  | [] => 0
  | [_] => 0
  | x :: y :: rest =>
    let k := firstMaxIdx (y :: rest)
    if (y :: rest).getD k 0 > x then k + 1 else 0

/-- `_score_routes`: normalize the four metrics over the route list and
combine them with the criteria weights. -/
def score_routes (routes : List OptimizedRoute) (criteria : OptimizationCriteria)
    (prefs : UserPreferences) : List RouteScore :=
  let costs := routes.map fun r => r.cost_breakdown.total_cost
  let times := routes.map fun r => r.osrm_route.duration / 60
  let distances := routes.map fun r => r.osrm_route.distance / 1000
  let toll_costs := routes.map fun r => r.cost_breakdown.total_toll_cost
  let w := adjustWeights (defaultWeights criteria) prefs
  routes.map fun r =>
    let cost_score := normalize_score (r.cost_breakdown.total_cost)
      (listMin costs) (listMax costs)
    let time_score := normalize_score (r.osrm_route.duration / 60)
      (listMin times) (listMax times)
    let distance_score := normalize_score (r.osrm_route.distance / 1000)
      (listMin distances) (listMax distances)
    let toll_score := normalize_score (r.cost_breakdown.total_toll_cost)
      (listMin toll_costs) (listMax toll_costs)
    let total_score := cost_score * w.cost + time_score * w.time +
      distance_score * w.distance + toll_score * w.toll
    { total_score := total_score
      cost_score := cost_score
      time_score := time_score
      distance_score := distance_score
      toll_score := toll_score
      ranking := determine_ranking total_score }

/-- `_compare_two_routes`. -/
def compare_two_routes (route_a route_b : OptimizedRoute)
    (route_a_id route_b_id : String) : RouteComparison :=
  let cost_diff := route_b.cost_breakdown.total_cost - route_a.cost_breakdown.total_cost
  let time_diff := (route_b.osrm_route.duration - route_a.osrm_route.duration) / 60
  let distance_diff := (route_b.osrm_route.distance - route_a.osrm_route.distance) / 1000
  let toll_diff := route_b.cost_breakdown.total_toll_cost -
    route_a.cost_breakdown.total_toll_cost
  let rc : String × ℚ :=
    if |cost_diff| < 10 then
      if time_diff < -5 then (route_b_id ++ " is faster with similar cost", 0.8)
      else if time_diff > 5 then (route_a_id ++ " is faster with similar cost", 0.8)
      else ("Routes are very similar", 0.6)
    else if cost_diff < 0 then
      if time_diff > 30 then (route_a_id ++ " is cheaper but much slower", 0.7)
      else (route_a_id ++ " is more cost-effective", 0.9)
    else
      if time_diff < -30 then (route_b_id ++ " is cheaper and faster", 0.95)
      else (route_b_id ++ " is more cost-effective", 0.9)
  { route_a_id := route_a_id
    route_b_id := route_b_id
    cost_difference := cost_diff
    time_difference := time_diff
    distance_difference := distance_diff
    toll_difference := toll_diff
    recommendation := rc.1
    confidence := rc.2 }

/-- `_generate_route_comparisons`: all pairs `i < j` in order. -/
def generate_route_comparisons (routes : List OptimizedRoute) : List RouteComparison :=
  ((List.range routes.length).map fun i =>
    (List.range routes.length).filterMap fun j =>
      if i < j then
        match routes[i]?, routes[j]? with
        | some ra, some rb =>
          some (compare_two_routes ra rb ("route_" ++ toString i) ("route_" ++ toString j))
        | _, _ => none
      else none).flatten

/-- `_analyze_savings`.  `recommended_route == fastest_route` is dataclass
equality; it holds exactly when the recommended index is 0 (see the
`optimize_route_select` comment; here the recommended route was just
relabeled `recommended`).  `savings_per_minute` divides the `Decimal`
`absolute_savings` by `max(abs(time_trade_off), 1)`, which is the `int` 1
when `|t| < 1` but the `float` `|t|` when `|t| ≥ 1` -- and dividing a
`Decimal` by a `float` raises `TypeError` in Python; likewise for
`savings_per_km`. -/
def analyze_savings (routes : List OptimizedRoute) (recommended_idx : ℕ) :
    Except String SavingsAnalysis :=
  let dummy : OptimizedRoute :=
    ⟨⟨0, 0, ""⟩, ⟨⟨0, 0, 0, 0, 0, ""⟩, 0, 0, none⟩, "", none⟩
  let recommended := routes.getD recommended_idx dummy
  let fastest := routes.getD 0 dummy
  let baseline :=
    if recommended_idx = 0 then
      routes.getD (firstMaxIdx (routes.map fun r => r.cost_breakdown.total_cost)) dummy
    else fastest
  let absolute_savings := baseline.cost_breakdown.total_cost -
    recommended.cost_breakdown.total_cost
  let percentage_savings :=
    if baseline.cost_breakdown.total_cost > 0 then
      absolute_savings / baseline.cost_breakdown.total_cost * 100
    else 0
  let time_trade_off := (recommended.osrm_route.duration - baseline.osrm_route.duration) / 60
  let distance_trade_off :=
    (recommended.osrm_route.distance - baseline.osrm_route.distance) / 1000
  match
    (if time_trade_off = 0 then Except.ok 0
     else if |time_trade_off| ≥ 1 then
       Except.error "TypeError: unsupported operand type(s) for /: Decimal and float"
     else Except.ok (absolute_savings / 1) : Except String ℚ) with
  | .error e => .error e
  | .ok savings_per_minute =>
    match
      (if distance_trade_off = 0 then Except.ok 0
       else if |distance_trade_off| ≥ 1 then
         Except.error "TypeError: unsupported operand type(s) for /: Decimal and float"
       else Except.ok (absolute_savings / 1) : Except String ℚ) with
    | .error e => .error e
    | .ok savings_per_km =>
      .ok { recommended_route_id := "recommended"
            baseline_route_id := "baseline"
            absolute_savings := absolute_savings
            percentage_savings := percentage_savings
            time_trade_off := time_trade_off
            distance_trade_off := distance_trade_off
            savings_per_minute := savings_per_minute
            savings_per_km := savings_per_km }

/-- `_generate_optimization_insights`; the branch structure is the source's,
with the number-interpolating f-strings abstracted to fixed messages. -/
def generate_optimization_insights (routes : List OptimizedRoute)
    (criteria : OptimizationCriteria) : List String :=
  let costs := routes.map fun r => r.cost_breakdown.total_cost
  let cost_range := listMax costs - listMin costs
  let i1 : List String :=
    if cost_range > 100 then
      ["Route costs vary - optimization can provide significant savings"]
    else if cost_range < 20 then
      ["All routes have similar costs - consider time or convenience factors"]
    else []
  let times := routes.map fun r => r.osrm_route.duration / 60
  let time_range := listMax times - listMin times
  let i2 : List String :=
    if time_range > 30 then
      ["Route times vary - consider time vs cost trade-offs"]
    else []
  let toll_routes := routes.filter fun r => r.cost_breakdown.total_toll_cost > 0
  let toll_free_routes := routes.filter fun r => r.cost_breakdown.total_toll_cost = 0
  let i3 : List String :=
    if ¬toll_routes.isEmpty ∧ ¬toll_free_routes.isEmpty then
      ["Toll-free alternatives available"]
    else []
  let fuel_costs := routes.map fun r => r.cost_breakdown.fuel_cost.total_fuel_cost
  let fuel_range := listMax fuel_costs - listMin fuel_costs
  let i4 : List String :=
    if fuel_range > 200 then
      ["Fuel costs vary - shorter routes provide better fuel efficiency"]
    else []
  let distances := routes.map fun r => r.osrm_route.distance / 1000
  let distance_range := listMax distances - listMin distances
  let i5 : List String :=
    if distance_range > 50 then
      ["Route distances vary - consider vehicle wear and maintenance costs"]
    else []
  let i6 : List String :=
    match criteria with
    | .total_cost =>
      ["Optimization focused on total cost - recommended route minimizes fuel and toll expenses"]
    | .time => ["Optimization focused on time - recommended route prioritizes speed over cost"]
    | .toll_avoidance =>
      ["Optimization focused on toll avoidance - recommended route minimizes toll expenses"]
    | _ => []
  i1 ++ i2 ++ i3 ++ i4 ++ i5 ++ i6

/-- `_generate_warnings`: every condition as in the source (the final
data-freshness reminder is unconditional). -/
def generate_warnings (recommended : OptimizedRoute) : List String :=
  let w1 : List String :=
    if recommended.cost_breakdown.total_cost > 5000 then
      ["High route cost detected - verify fuel prices and vehicle efficiency"]
    else []
  let w2 : List String :=
    if recommended.osrm_route.distance > 1000000 then
      ["Very long route detected - consider overnight stops or driver rest requirements"]
    else []
  let w3 : List String :=
    if recommended.osrm_route.duration > 28800 then
      ["Long driving time detected - consider driver fatigue and legal driving limits"]
    else []
  let w4 : List String :=
    if recommended.cost_breakdown.total_toll_cost >
        recommended.cost_breakdown.fuel_cost.total_fuel_cost then
      ["Toll costs exceed fuel costs - consider toll-free alternatives"]
    else []
  let w5 : List String :=
    if (match recommended.estimated_savings with
        | none => false
        | some v => decide (v ≠ 0) && decide (v < 10)) then
      ["Minimal cost savings detected - fastest route may be more practical"]
    else []
  w1 ++ w2 ++ w3 ++ w4 ++ w5 ++
    ["Verify fuel prices and toll costs are current for accurate optimization"]

/-- `RouteComparisonService.analyze_routes`: raise `ValueError` for an empty
list, then score, select (relabeling `recommended`), compare, analyze
savings (which can raise `TypeError`), and assemble the summary. -/
def analyze_routes (routes : List OptimizedRoute)
    (criteria : OptimizationCriteria := .total_cost)
    (prefs : UserPreferences := {}) : Except String OptimizationSummary :=
  if routes.isEmpty then Except.error "ValueError: No routes provided for analysis"
  else
    let route_scores := score_routes routes criteria prefs
    let rIdx := firstMinIdx (route_scores.map fun s => s.total_score)
    let routes := routes.mapIdx fun i r =>
      if i = rIdx then { r with route_type := "recommended" } else r
    let route_comparisons := generate_route_comparisons routes
    let dummy : OptimizedRoute :=
      ⟨⟨0, 0, ""⟩, ⟨⟨0, 0, 0, 0, 0, ""⟩, 0, 0, none⟩, "", none⟩
    match analyze_savings routes rIdx with
    | .error e => .error e
    | .ok savings_analysis =>
      .ok { total_routes_analyzed := routes.length
            recommended_idx := rIdx
            route_scores := route_scores
            route_comparisons := route_comparisons
            savings_analysis := savings_analysis
            optimization_insights := generate_optimization_insights routes criteria
            warnings := generate_warnings (routes.getD rIdx dummy) }

/-! ## Common validators (src/backend/app/validators/common_validators.py) -/

/-- `int(c)` applied to a decimal digit character. -/
def digitVal (c : Char) : ℕ := c.toNat - 48

/-- The CUIT validation multipliers of `_validate_cuit_algorithm`. -/
def cuitMultipliers : List ℕ := [5, 4, 3, 2, 7, 6, 5, 4, 3, 2]

/-- `_validate_cuit_algorithm` on the list of digit characters: weighted sum
of the first ten digits mod 11 determines the check digit, compared with the
eleventh digit. -/
def validate_cuit_algorithm (cuit : List Char) : Bool :=
  if cuit.length ≠ 11 then false
  else
    let total := (List.zipWith (fun c m => digitVal c * m) (cuit.take 10) cuitMultipliers).sum
    let remainder := total % 11
    let check_digit := if remainder < 2 then remainder else 11 - remainder
    decide (digitVal (cuit.getD 10 '0') = check_digit)

/-- `validate_tax_id`; `none` models the raised `HTTPException`.  Python's
`re.sub(r'\D', '', tax_id.strip())` keeps the decimal digits of the input, in
order; on the ASCII data the service handles this is `Char.isDigit`.  The
leading blank-input guard (`not tax_id or not tax_id.strip()`) rejects
strings that are empty or all whitespace. -/
def validate_tax_id (tax_id : String) : Option String :=
  if tax_id.toList.all Char.isWhitespace then none
  else
    let normalized := tax_id.toList.filter Char.isDigit
    if normalized.length ≠ 11 then none
    else if ¬ validate_cuit_algorithm normalized then none
    else some (String.mk (normalized.take 2) ++ "-" ++
               String.mk ((normalized.drop 2).take 8) ++ "-" ++
               String.mk (normalized.drop 10))

/-- ASCII upper-casing of one character; embeds what Python's `str.upper()`
does on the ASCII range handled by the validators. -/
def pyUpperChar (c : Char) : Char :=
  if 97 ≤ c.toNat ∧ c.toNat ≤ 122 then Char.ofNat (c.toNat - 32) else c

/-- Python's `str.isspace()` on the ASCII range: space, `\t`, `\n`, `\x0b`,
`\x0c`, `\r`, and the separator controls `\x1c`-`\x1f` -- the characters
`str.strip()` removes (non-ASCII Unicode whitespace is outside this model). -/
def pyIsSpace (c : Char) : Bool :=
  decide (c.toNat = 32 ∨ (9 ≤ c.toNat ∧ c.toNat ≤ 13) ∨ (28 ≤ c.toNat ∧ c.toNat ≤ 31))

/-- Python's `str.strip()` on the character list: drop leading and trailing
whitespace. -/
def pyStrip (l : List Char) : List Char :=
  ((l.dropWhile pyIsSpace).reverse.dropWhile pyIsSpace).reverse

/-- The regex character class `[A-Z]`. -/
def isUpperAlpha (c : Char) : Bool := decide (65 ≤ c.toNat ∧ c.toNat ≤ 90)

/-- Matching a fixed sequence of character classes against a whole string. -/
def matchesClasses : List (Char → Bool) → List Char → Bool
  | [], [] => true
  | cls :: p, c :: l => cls c && matchesClasses p l
  | _, _ => false

/-- The three Argentina license-plate patterns of `validate_license_plate`:
`[A-Z]{3}\d{3}`, `[A-Z]{2}\d{3}[A-Z]{2}`, `\d{3}[A-Z]{3}`. -/
def plate_patterns : List (List (Char → Bool)) :=
  [ [isUpperAlpha, isUpperAlpha, isUpperAlpha, Char.isDigit, Char.isDigit, Char.isDigit],
    [isUpperAlpha, isUpperAlpha, Char.isDigit, Char.isDigit, Char.isDigit, isUpperAlpha,
     isUpperAlpha],
    [Char.isDigit, Char.isDigit, Char.isDigit, isUpperAlpha, isUpperAlpha, isUpperAlpha] ]

/-- A whole-string match of one of the three patterns. -/
def exactPlateMatch (l : List Char) : Bool :=
  plate_patterns.any (fun p => matchesClasses p l)

/-- The pattern loop of `validate_license_plate`: `re.match` of the three
anchored patterns.  Without `re.MULTILINE`, Python's `$` matches at the end
of the string or just before one newline at the end of the string, so a
single trailing `\n` after the pattern is also accepted (the classes
themselves never match a newline). -/
def matches_plate_patterns (l : List Char) : Bool :=
  exactPlateMatch l ||
  (decide (l.getLast? = some '\n') && exactPlateMatch l.dropLast)

/-- The newline-free core of a character list: drop one trailing newline. -/
def stripTrailingNl (l : List Char) : List Char :=
  if l.getLast? = some '\n' then l.dropLast else l

/-- The normalization `license_plate.strip().upper().replace(' ', '').replace('-', '')`. -/
def normalize_plate (s : String) : List Char :=
  ((((pyStrip s.toList).map pyUpperChar).filter (fun c => decide (c ≠ ' '))).filter
    (fun c => decide (c ≠ '-')))

/-- `validate_license_plate`; `none` models the raised `HTTPException`.  The
leading guard `not license_plate or not license_plate.strip()` rejects
strings that are empty or all (Python) whitespace. -/
def validate_license_plate (s : String) : Option String :=
  if s.toList.all pyIsSpace then none
  else
    let normalized := normalize_plate s
    if matches_plate_patterns normalized then some (String.mk normalized) else none

/-! ## Rate limiting middleware
(src/backend/app/middleware/rate_limit_middleware.py)

Request timestamps (`time.time()` floats) are modelled as `ℚ`; the per-IP
deque of timestamps as a `List ℚ` with the oldest entry first. -/

/-- `_clean_old_requests`: pop timestamps `x` with
`current_time - x > window_size` (60 s) from the front of the queue. -/
def clean_old_requests (current_time : ℚ) (q : List ℚ) : List ℚ :=
  q.dropWhile (fun x => decide (current_time - x > 60))

/-- `_is_rate_limited`: purge old entries, then reject iff the queue already
holds at least `requests_per_minute` entries; on admission append the current
timestamp.  Returns the decision together with the updated queue (the Python
code mutates the deque in place). -/
def is_rate_limited (requests_per_minute : ℕ) (q : List ℚ) (current_time : ℚ) :
    Bool × List ℚ :=
  let q1 := clean_old_requests current_time q
  if q1.length ≥ requests_per_minute then (true, q1)
  else (false, q1 ++ [current_time])

/-- The observable part of `dispatch`'s response for a rejected request. -/
structure RateLimitResponse where
  status : ℕ
  retry_after : Option String
deriving DecidableEq, Repr

/-- `dispatch` restricted to the per-IP limiter on a non-excluded path:
`some r` is the early 429 response (the request never reaches a handler),
`none` means the request proceeds. -/
def rateLimitDispatch (requests_per_minute : ℕ) (q : List ℚ) (current_time : ℚ) :
    Option RateLimitResponse × List ℚ :=
  let r := is_rate_limited requests_per_minute q current_time
  if r.1 then (some { status := 429, retry_after := some "60" }, r.2)
  else (none, r.2)

/-- One request step: record the decision, carry the updated queue. -/
def runStep (requests_per_minute : ℕ) (acc : List Bool × List ℚ) (t : ℚ) :
    List Bool × List ℚ :=
  let r := is_rate_limited requests_per_minute acc.2 t
  (acc.1 ++ [r.1], r.2)

/-- Run a sequence of requests from one identifier through the limiter,
collecting the rejection decisions and the final queue. -/
def runRequests (requests_per_minute : ℕ) (ts : List ℚ) : List Bool × List ℚ :=
  ts.foldl (runStep requests_per_minute) ([], [])

/-- The timestamps of the admitted requests of a request sequence, starting
from queue `q` and already-admitted list `adm`. -/
def runAdmitted (requests_per_minute : ℕ) : List ℚ → List ℚ → List ℚ → List ℚ
  | [], _, adm => adm
  | t :: rest, q, adm =>
    let r := is_rate_limited requests_per_minute q t
    runAdmitted requests_per_minute rest r.2 (if r.1 then adm else adm ++ [t])

/-- The timestamps of the admitted requests of a request sequence. -/
def admittedTimes (requests_per_minute : ℕ) (ts : List ℚ) : List ℚ :=
  runAdmitted requests_per_minute ts [] []

/-- Membership of a timestamp in the rolling 60-second window `[w, w+60]`. -/
def inWindow (w x : ℚ) : Bool := decide (w ≤ x ∧ x ≤ w + 60)

/-! ## Helper lemmas -/

theorem pyIsSpace_toNat_lt (c : Char) (h : pyIsSpace c = true) : c.toNat < 48 := by
  simp only [pyIsSpace, decide_eq_true_eq] at h
  omega

theorem dropWhile_eq_self_of_forall {p : Char → Bool} {l : List Char}
    (h : ∀ c ∈ l, p c = false) : l.dropWhile p = l := by
  cases l with
  | nil => rfl
  | cons a t => simp [List.dropWhile_cons, h a (List.mem_cons_self a t)]

theorem pyStrip_eq_nil_of_all_ws {l : List Char} (h : l.all pyIsSpace = true) :
    pyStrip l = [] := by
  have h1 : l.dropWhile pyIsSpace = [] := by
    rw [List.dropWhile_eq_nil_iff]
    exact fun x hx => List.all_eq_true.mp h x hx
  simp [pyStrip, h1]

theorem pyStrip_eq_self_of_no_ws {l : List Char}
    (h : ∀ c ∈ l, pyIsSpace c = false) : pyStrip l = l := by
  have h1 : l.dropWhile pyIsSpace = l := dropWhile_eq_self_of_forall h
  have h2 : l.reverse.dropWhile pyIsSpace = l.reverse :=
    dropWhile_eq_self_of_forall (fun c hc => h c (List.mem_reverse.mp hc))
  simp [pyStrip, h1, h2]

/-- Stripping a list of non-whitespace characters followed by one newline
removes exactly that newline. -/
theorem pyStrip_append_newline {l : List Char} (hne : l ≠ [])
    (h : ∀ c ∈ l, pyIsSpace c = false) : pyStrip (l ++ ['\n']) = l := by
  have h1 : (l ++ ['\n']).dropWhile pyIsSpace = l ++ ['\n'] := by
    cases l with
    | nil => exact absurd rfl hne
    | cons a t =>
      simp [List.dropWhile_cons, h a (List.mem_cons_self a t)]
  have h2 : (l ++ ['\n']).reverse = '\n' :: l.reverse := by
    simp
  have h3 : ('\n' :: l.reverse).dropWhile pyIsSpace = l.reverse := by
    rw [List.dropWhile_cons]
    have hnl : pyIsSpace '\n' = true := by decide
    rw [hnl, if_pos rfl]
    exact dropWhile_eq_self_of_forall (fun c hc => h c (List.mem_reverse.mp hc))
  rw [pyStrip, h1, h2, h3, List.reverse_reverse]

theorem whitespace_not_digit (c : Char) (h : c.isWhitespace = true) : c.isDigit = false := by
  simp [Char.isWhitespace] at h
  rcases h with ((h | h) | h) | h <;> subst h <;> decide

theorem digit_toNat_bounds (c : Char) (h : c.isDigit = true) :
    48 ≤ c.toNat ∧ c.toNat ≤ 57 := by
  simp [Char.isDigit, Char.le_def] at h
  exact ⟨h.1, h.2⟩

theorem digitVal_inj (c e : Char) (hc : c.isDigit = true) (he : e.isDigit = true)
    (h : digitVal c = digitVal e) : c = e := by
  obtain ⟨hc1, -⟩ := digit_toNat_bounds c hc
  obtain ⟨he1, -⟩ := digit_toNat_bounds e he
  have : c.toNat = e.toNat := by
    simp only [digitVal] at h
    omega
  exact Char.ext (UInt32.ext this)

/-- Acceptance characterization of `validate_tax_id`. -/
theorem validate_tax_id_isSome_iff (s : String) :
    (validate_tax_id s).isSome = true ↔
    ((s.toList.filter Char.isDigit).length = 11 ∧
     validate_cuit_algorithm (s.toList.filter Char.isDigit) = true) := by
  simp only [validate_tax_id, String.toList]
  split_ifs with h1 h2 h3
  · constructor
    · intro h; simp at h
    · rintro ⟨hlen, -⟩
      have hnil : List.filter Char.isDigit s.data = [] := by
        rw [List.filter_eq_nil_iff]
        intro c hc
        simp [whitespace_not_digit c (List.all_eq_true.mp h1 c hc)]
      rw [hnil] at hlen
      simp at hlen
  · constructor
    · intro h; simp at h
    · rintro ⟨hlen, -⟩; exact absurd hlen h2
  · constructor
    · intro _; exact ⟨by omega, h3⟩
    · intro _; rfl
  · constructor
    · intro h; simp at h
    · rintro ⟨-, hsum⟩; exact absurd hsum h3

theorem dropWhile_dropWhile {p p' : ℚ → Bool} (h : ∀ x, p x = true → p' x = true) :
    ∀ l : List ℚ, (l.dropWhile p).dropWhile p' = l.dropWhile p'
  | [] => rfl
  | a :: t => by
    cases hpa : p a with
    | false => simp [List.dropWhile_cons, hpa]
    | true => simp [List.dropWhile_cons, hpa, h a hpa, dropWhile_dropWhile h t]

theorem sorted_dropWhile_eq_filter (c : ℚ) :
    ∀ q : List ℚ, q.Sorted (· ≤ ·) →
      q.dropWhile (fun x => decide (c - x > 60)) = q.filter (fun x => decide (c - x ≤ 60))
  | [], _ => rfl
  | a :: t, hs => by
    obtain ⟨ha, ht⟩ := List.sorted_cons.mp hs
    by_cases hca : c - a > 60
    · have h1 : (decide (c - a > 60)) = true := decide_eq_true hca
      have h2 : (decide (c - a ≤ 60)) = false := decide_eq_false (by linarith)
      simp only [List.dropWhile_cons, h1, if_true, List.filter_cons, h2, Bool.false_eq_true,
        if_false]
      exact sorted_dropWhile_eq_filter c t ht
    · have h1 : (decide (c - a > 60)) = false := decide_eq_false hca
      have h2 : (decide (c - a ≤ 60)) = true := decide_eq_true (by linarith)
      have h3 : t.filter (fun x => decide (c - x ≤ 60)) = t :=
        List.filter_eq_self.mpr (fun b hb =>
          decide_eq_true (by have := ha b hb; linarith))
      simp only [List.dropWhile_cons, h1, Bool.false_eq_true, if_false, List.filter_cons, h2,
        if_true, h3]

theorem length_filter_mono {p q : ℚ → Bool} :
    ∀ l : List ℚ, (∀ x ∈ l, p x = true → q x = true) →
      (l.filter p).length ≤ (l.filter q).length
  | [], _ => le_refl _
  | a :: t, h => by
    have ih := length_filter_mono t (fun x hx => h x (List.mem_cons_of_mem a hx))
    cases hpa : p a with
    | true =>
      have hqa : q a = true := h a (List.mem_cons_self a t) hpa
      simp only [List.filter_cons, hpa, hqa, if_true, List.length_cons]
      exact Nat.succ_le_succ ih
    | false =>
      simp only [List.filter_cons, hpa, Bool.false_eq_true, if_false]
      cases hqa : q a with
      | true =>
        simp only [hqa, if_true, List.length_cons]
        exact Nat.le_succ_of_le ih
      | false => simpa only [hqa, Bool.false_eq_true, if_false] using ih

/-- Inductive invariant for the sliding-window limiter: whenever the queue
holds exactly the admitted timestamps within 60 s of a time bound `tb` that
precedes all pending requests, no rolling window `[w, w+60]` ever
accumulates more than `N` admitted requests. -/
theorem runAdmitted_window_bound (N : ℕ) :
    ∀ (ts q adm : List ℚ) (tb : ℚ),
      ts.Sorted (· ≤ ·) →
      (∀ u ∈ ts, tb ≤ u) →
      adm.Sorted (· ≤ ·) →
      (∀ x ∈ adm, x ≤ tb) →
      q = adm.filter (fun x => decide (tb - x ≤ 60)) →
      (∀ w, (adm.filter (inWindow w)).length ≤ N) →
      ∀ w, ((runAdmitted N ts q adm).filter (inWindow w)).length ≤ N
  | [], q, adm, tb, _, _, _, _, _, hP => hP
  | t :: rest, q, adm, tb, hts, hlb, hadm, hub, hq, hP => by
    obtain ⟨hhead, hrest⟩ := List.sorted_cons.mp hts
    have htb : tb ≤ t := hlb t (List.mem_cons_self t rest)
    have hub_t : ∀ x ∈ adm, x ≤ t := fun x hx => le_trans (hub x hx) htb
    have hq_sorted : q.Sorted (· ≤ ·) := by
      rw [hq]; exact hadm.sublist (List.filter_sublist adm)
    have hclean : clean_old_requests t q = adm.filter (fun x => decide (t - x ≤ 60)) := by
      rw [clean_old_requests, sorted_dropWhile_eq_filter t q hq_sorted, hq,
        List.filter_filter]
      apply List.filter_congr
      intro x hx
      cases hd : decide (t - x ≤ 60) with
      | false => simp [hd]
      | true =>
        have h1 : t - x ≤ 60 := of_decide_eq_true hd
        have h2 : tb - x ≤ 60 := by linarith
        simp only [hd, decide_eq_true h2, Bool.and_self]
    by_cases hlim : N ≤ (clean_old_requests t q).length
    · have hr : is_rate_limited N q t = (true, clean_old_requests t q) := by
        simp only [is_rate_limited]
        rw [if_pos hlim]
      have hstep : runAdmitted N (t :: rest) q adm =
          runAdmitted N rest (clean_old_requests t q) adm := by
        simp only [runAdmitted, hr, if_true]
      rw [hstep]
      exact runAdmitted_window_bound N rest (clean_old_requests t q) adm t hrest hhead
        hadm hub_t hclean hP
    · have hr : is_rate_limited N q t =
          (false, clean_old_requests t q ++ [t]) := by
        simp only [is_rate_limited]
        rw [if_neg hlim]
      have hstep : runAdmitted N (t :: rest) q adm =
          runAdmitted N rest (clean_old_requests t q ++ [t]) (adm ++ [t]) := by
        simp only [runAdmitted, hr, Bool.false_eq_true, if_false]
      have hlt : (clean_old_requests t q).length < N := Nat.lt_of_not_le hlim
      have hadm' : (adm ++ [t]).Sorted (· ≤ ·) := by
        apply List.pairwise_append.mpr
        refine ⟨hadm, List.pairwise_singleton _ _, ?_⟩
        intro a ha b hb
        rw [List.mem_singleton] at hb
        subst hb
        exact hub_t a ha
      have hub' : ∀ x ∈ adm ++ [t], x ≤ t := by
        intro x hx
        rcases List.mem_append.mp hx with hx | hx
        · exact hub_t x hx
        · rw [List.mem_singleton] at hx; exact hx.le
      have hq' : clean_old_requests t q ++ [t] =
          (adm ++ [t]).filter (fun x => decide (t - x ≤ 60)) := by
        rw [List.filter_append, hclean]
        congr 1
        simp
      have hP' : ∀ w, ((adm ++ [t]).filter (inWindow w)).length ≤ N := by
        intro w
        rw [List.filter_append, List.length_append]
        cases hwt : inWindow w t with
        | false =>
          have : List.filter (inWindow w) [t] = [] := by simp [hwt]
          rw [this]
          simpa using hP w
        | true =>
          have hwle : w ≤ t ∧ t ≤ w + 60 := by
            have := hwt
            rw [inWindow, decide_eq_true_eq] at this
            exact this
          have hsub : (adm.filter (inWindow w)).length ≤
              (adm.filter (fun x => decide (t - x ≤ 60))).length := by
            apply length_filter_mono
            intro x hx hxw
            rw [inWindow, decide_eq_true_eq] at hxw
            exact decide_eq_true (by linarith [hwle.2, hxw.1])
          have hlt' : (adm.filter (inWindow w)).length < N := by
            rw [hclean] at hlt
            exact lt_of_le_of_lt hsub hlt
          have : List.filter (inWindow w) [t] = [t] := by simp [hwt]
          rw [this]
          simp only [List.length_singleton]
          omega
      rw [hstep]
      exact runAdmitted_window_bound N rest (clean_old_requests t q ++ [t]) (adm ++ [t]) t
        hrest hhead hadm' hub' hq' hP'

theorem firstMinIdx_lt_length : ∀ l : List ℚ, l ≠ [] → firstMinIdx l < l.length
  | [], h => absurd rfl h
  | [_], _ => by simp [firstMinIdx]
  | x :: y :: rest, _ => by
    have ih := firstMinIdx_lt_length (y :: rest) (by simp)
    simp only [firstMinIdx]
    split
    · simpa using Nat.succ_lt_succ ih
    · simp

theorem firstMinIdx_min : ∀ (l : List ℚ) (j : ℕ), j < l.length →
    l.getD (firstMinIdx l) 0 ≤ l.getD j 0
  | [], j, h => by simp at h
  | [a], j, h => by
    have hj : j = 0 := by
      simp only [List.length_singleton] at h
      omega
    subst hj
    simp [firstMinIdx]
  | x :: y :: rest, j, h => by
    have ih := fun m hm => firstMinIdx_min (y :: rest) m hm
    simp only [firstMinIdx]
    split
    case isTrue hc =>
      rw [List.getD_cons_succ]
      cases j with
      | zero =>
        rw [List.getD_cons_zero]
        exact le_of_lt hc
      | succ m =>
        rw [List.getD_cons_succ]
        exact ih m (by simpa using Nat.lt_of_succ_lt_succ h)
    case isFalse hc =>
      rw [List.getD_cons_zero]
      cases j with
      | zero =>
        rw [List.getD_cons_zero]
      | succ m =>
        rw [List.getD_cons_succ]
        exact le_trans (not_lt.mp hc) (ih m (by simpa using Nat.lt_of_succ_lt_succ h))

theorem matchesClasses_forall₂ {p : List (Char → Bool)} {l : List Char}
    (h : matchesClasses p l = true) : List.Forall₂ (fun cls c => cls c = true) p l := by
  induction p generalizing l with
  | nil =>
    cases l with
    | nil => exact List.Forall₂.nil
    | cons c t => simp [matchesClasses] at h
  | cons cls p ih =>
    cases l with
    | nil => simp [matchesClasses] at h
    | cons c t =>
      simp only [matchesClasses, Bool.and_eq_true] at h
      exact List.Forall₂.cons h.1 (ih h.2)

theorem forall₂_mem_right {R : (Char → Bool) → Char → Prop}
    {p : List (Char → Bool)} {l : List Char}
    (h : List.Forall₂ R p l) {c : Char} (hc : c ∈ l) : ∃ cls ∈ p, R cls c := by
  induction h with
  | nil => simp at hc
  | @cons cls c' p' l' h1 h2 ih =>
    rcases List.mem_cons.mp hc with rfl | hc'
    · exact ⟨cls, List.mem_cons_self cls p', h1⟩
    · obtain ⟨cls', hcls, hr⟩ := ih hc'
      exact ⟨cls', List.mem_cons_of_mem _ hcls, hr⟩

theorem plate_chars_alnum {l : List Char} (h : exactPlateMatch l = true) :
    ∀ c ∈ l, isUpperAlpha c = true ∨ c.isDigit = true := by
  intro c hc
  simp only [exactPlateMatch, List.any_eq_true] at h
  obtain ⟨p, hp, hm⟩ := h
  obtain ⟨cls, hcls, hr⟩ := forall₂_mem_right (matchesClasses_forall₂ hm) hc
  simp only [plate_patterns, List.mem_cons, List.not_mem_nil, or_false] at hp
  rcases hp with rfl | rfl | rfl <;>
    · simp only [List.mem_cons, List.not_mem_nil, or_false] at hcls
      rcases hcls with rfl | rfl | rfl | rfl | rfl | rfl | rfl <;>
        first
          | exact Or.inl hr
          | exact Or.inr hr

theorem alnum_toNat {c : Char} (h : isUpperAlpha c = true ∨ c.isDigit = true) :
    48 ≤ c.toNat ∧ c.toNat ≤ 90 := by
  rcases h with h | h
  · have hb : 65 ≤ c.toNat ∧ c.toNat ≤ 90 := by simpa [isUpperAlpha] using h
    omega
  · have hb := digit_toNat_bounds c h
    omega

theorem alnum_not_pyspace {c : Char} (h : 48 ≤ c.toNat) : pyIsSpace c = false := by
  cases hw : pyIsSpace c with
  | false => rfl
  | true =>
    exfalso
    have := pyIsSpace_toNat_lt c hw
    omega

theorem alnum_pyUpper {c : Char} (h : c.toNat ≤ 90) : pyUpperChar c = c := by
  rw [pyUpperChar, if_neg]
  rintro ⟨h1, -⟩
  omega

theorem alnum_ne_of_toNat {c e : Char} (h : c.toNat ≠ e.toNat) : c ≠ e := by
  intro hc
  exact h (by rw [hc])

theorem exactPlateMatch_nil : exactPlateMatch [] = false := rfl

theorem matches_plate_patterns_nil : matches_plate_patterns [] = false := rfl

/-- The two ways `re.match` of a `$`-anchored pattern succeeds: a
whole-string match, or a match of everything before one trailing newline. -/
theorem matches_plate_patterns_cases {l : List Char} (h : matches_plate_patterns l = true) :
    exactPlateMatch l = true ∨
    (l.getLast? = some '\n' ∧ exactPlateMatch l.dropLast = true) := by
  rw [matches_plate_patterns, Bool.or_eq_true, Bool.and_eq_true, decide_eq_true_eq] at h
  exact h

/-- The uppercase/filter stages of the normalization fix alphanumeric
character lists. -/
theorem normalize_core {l : List Char}
    (hbounds : ∀ c ∈ l, 48 ≤ c.toNat ∧ c.toNat ≤ 90) :
    ((l.map pyUpperChar).filter (fun c => decide (c ≠ ' '))).filter
      (fun c => decide (c ≠ '-')) = l := by
  have hmap : l.map pyUpperChar = l := by
    conv_rhs => rw [← List.map_id l]
    exact List.map_congr_left (fun c hc => alnum_pyUpper (hbounds c hc).2)
  have hf1 : l.filter (fun c => decide (c ≠ ' ')) = l :=
    List.filter_eq_self.mpr (fun c hc =>
      decide_eq_true (alnum_ne_of_toNat (by have := (hbounds c hc).1; simp; omega)))
  have hf2 : l.filter (fun c => decide (c ≠ '-')) = l :=
    List.filter_eq_self.mpr (fun c hc =>
      decide_eq_true (alnum_ne_of_toNat (by have := (hbounds c hc).1; simp; omega)))
  rw [hmap, hf1, hf2]

/-- A character list matched exactly by the plate patterns is untouched by
the normalization (no whitespace to strip, already uppercase, no spaces or
hyphens). -/
theorem normalize_plate_of_matched {l : List Char} (h : exactPlateMatch l = true) :
    normalize_plate (String.mk l) = l := by
  have hbounds : ∀ c ∈ l, 48 ≤ c.toNat ∧ c.toNat ≤ 90 :=
    fun c hc => alnum_toNat (plate_chars_alnum h c hc)
  have hnws : ∀ c ∈ l, pyIsSpace c = false := fun c hc => alnum_not_pyspace (hbounds c hc).1
  have hmk : (String.mk l).toList = l := rfl
  rw [normalize_plate, hmk, pyStrip_eq_self_of_no_ws hnws, normalize_core hbounds]

/-- Normalizing an exactly matched core followed by one trailing newline
strips exactly that newline. -/
theorem normalize_plate_of_matched_newline {l : List Char} (h : exactPlateMatch l = true) :
    normalize_plate (String.mk (l ++ ['\n'])) = l := by
  have hbounds : ∀ c ∈ l, 48 ≤ c.toNat ∧ c.toNat ≤ 90 :=
    fun c hc => alnum_toNat (plate_chars_alnum h c hc)
  have hnws : ∀ c ∈ l, pyIsSpace c = false := fun c hc => alnum_not_pyspace (hbounds c hc).1
  have hne : l ≠ [] := by
    rintro rfl
    rw [exactPlateMatch_nil] at h
    exact Bool.false_ne_true h
  have hmk : (String.mk (l ++ ['\n'])).toList = l ++ ['\n'] := rfl
  rw [normalize_plate, hmk, pyStrip_append_newline hne hnws, normalize_core hbounds]

/-- `validate_license_plate` accepts an exactly matched character list
verbatim. -/
theorem validate_on_matched {l : List Char} (hm : exactPlateMatch l = true) :
    validate_license_plate (String.mk l) = some (String.mk l) := by
  have hne : l ≠ [] := by
    rintro rfl
    rw [exactPlateMatch_nil] at hm
    exact Bool.false_ne_true hm
  have hguard : (String.mk l).toList.all pyIsSpace = false := by
    cases l with
    | nil => exact absurd rfl hne
    | cons c t =>
      have hcws : pyIsSpace c = false :=
        alnum_not_pyspace (alnum_toNat (plate_chars_alnum hm c (List.mem_cons_self c t))).1
      simp [String.toList, hcws]
  have hm' : matches_plate_patterns l = true := by
    rw [matches_plate_patterns, hm, Bool.true_or]
  rw [validate_license_plate,
    if_neg (fun hh => Bool.false_ne_true (hguard ▸ hh))]
  simp only [normalize_plate_of_matched hm, if_pos hm']

/-- `validate_license_plate` accepts an exactly matched core with one
trailing newline, returning core and newline -- the Python `$` quirk. -/
theorem validate_on_matched_newline {l : List Char} (hm : exactPlateMatch l = true) :
    validate_license_plate (String.mk (l ++ ['\n'])) = some (String.mk l) := by
  have hne : l ≠ [] := by
    rintro rfl
    rw [exactPlateMatch_nil] at hm
    exact Bool.false_ne_true hm
  have hguard : (String.mk (l ++ ['\n'])).toList.all pyIsSpace = false := by
    cases l with
    | nil => exact absurd rfl hne
    | cons c t =>
      have hcws : pyIsSpace c = false :=
        alnum_not_pyspace (alnum_toNat (plate_chars_alnum hm c (List.mem_cons_self c t))).1
      simp [String.toList, hcws]
  have hm' : matches_plate_patterns l = true := by
    rw [matches_plate_patterns, hm, Bool.true_or]
  rw [validate_license_plate,
    if_neg (fun hh => Bool.false_ne_true (hguard ▸ hh))]
  simp only [normalize_plate_of_matched_newline hm, if_pos hm']

/-- Decomposition of an accepted plate: the returned value is the
normalization, and the normalization matches a pattern. -/
theorem validate_license_plate_some (s n : String) (h : validate_license_plate s = some n) :
    n = String.mk (normalize_plate s) ∧
    matches_plate_patterns (normalize_plate s) = true := by
  simp only [validate_license_plate] at h
  split_ifs at h with h1 h2
  exact ⟨(Option.some.inj h).symm, h2⟩

/-- The checksum test spelled out: weighted sum of the first ten digits,
mod 11, determines the check digit compared with the eleventh. -/
theorem cuit_algorithm_iff (ds : List Char) (h : ds.length = 11) :
    validate_cuit_algorithm ds = true ↔
      digitVal (ds.getD 10 '0') =
        (let r := (List.zipWith (fun c m => digitVal c * m) (ds.take 10)
                    [5, 4, 3, 2, 7, 6, 5, 4, 3, 2]).sum % 11
         if r < 2 then r else 11 - r) := by
  simp [validate_cuit_algorithm, cuitMultipliers, h]

/-- On acceptance, `validate_tax_id` returns the digits formatted as
XX-XXXXXXXX-X. -/
theorem validate_tax_id_format (s r : String) (h : validate_tax_id s = some r) :
    r = String.mk ((s.toList.filter Char.isDigit).take 2) ++ "-" ++
        String.mk (((s.toList.filter Char.isDigit).drop 2).take 8) ++ "-" ++
        String.mk ((s.toList.filter Char.isDigit).drop 10) := by
  simp only [validate_tax_id, String.toList] at h ⊢
  split_ifs at h
  exact (Option.some.inj h).symm

/-- Flipping the last digit of an accepted tax id yields a rejected one. -/
theorem validate_tax_id_flip (s : String) (d : Char)
    (hacc : (validate_tax_id s).isSome = true) (hd : d.isDigit = true)
    (hne : d ≠ (s.toList.filter Char.isDigit).getD 10 '0') :
    validate_tax_id (String.mk ((s.toList.filter Char.isDigit).take 10 ++ [d])) = none := by
  obtain ⟨hlen, hsum⟩ := (validate_tax_id_isSome_iff s).mp hacc
  set ds := s.toList.filter Char.isDigit with hds
  have hdigits : ∀ c ∈ ds, c.isDigit = true := fun c hc => List.of_mem_filter hc
  have hlen10 : (ds.take 10).length = 10 := by simp [List.length_take, hlen]
  set l := ds.take 10 ++ [d] with hl
  have hllen : l.length = 11 := by simp [hl, hlen10]
  have hldig : ∀ c ∈ l, c.isDigit = true := by
    intro c hc
    rcases List.mem_append.mp hc with hc | hc
    · exact hdigits c (List.take_subset _ _ hc)
    · simp only [List.mem_singleton] at hc; subst hc; exact hd
  have hdm : (String.mk l).data = l := rfl
  have hdw : d.isWhitespace = false := by
    cases hw : d.isWhitespace
    · rfl
    · exact absurd hd (by simp [whitespace_not_digit d hw])
  have hguard : l.all Char.isWhitespace = false := by
    cases hall : l.all Char.isWhitespace
    · rfl
    · exact absurd (List.all_eq_true.mp hall d (by simp [hl])) (by simp [hdw])
  have hfilter : List.filter Char.isDigit l = l := List.filter_eq_self.mpr hldig
  have htake : l.take 10 = ds.take 10 := by
    rw [hl, List.take_append_of_le_length (by omega)]
    simp [List.take_take]
  have hgetl : l.getD 10 '0' = d := by
    rw [List.getD_eq_getElem?_getD, hl, List.getElem?_append_right (by omega)]
    simp [hlen10]
  have hlast_digit : (ds.getD 10 '0').isDigit = true := by
    have hmem : ds.getD 10 '0' ∈ ds := by
      rw [List.getD_eq_getElem ds '0' (by omega)]
      exact List.getElem_mem _
    exact hdigits _ hmem
  have hval : validate_cuit_algorithm l = false := by
    cases hv : validate_cuit_algorithm l
    · rfl
    · exfalso
      have h1 := (cuit_algorithm_iff l hllen).mp hv
      have h2 := (cuit_algorithm_iff ds hlen).mp hsum
      rw [hgetl, htake] at h1
      have : digitVal d = digitVal (ds.getD 10 '0') := by rw [h1, h2]
      exact hne (digitVal_inj d (ds.getD 10 '0') hd hlast_digit this)
  simp only [validate_tax_id, String.toList, hdm, hguard, Bool.false_eq_true, if_false,
    hfilter, hllen, hval]
  simp

/-! ## Theorems -/

/-- C6: the staleness level of a data age is the highest threshold it meets or
exceeds, else fresh — for fuel prices warning/stale/critical at 15/30/60 days,
for tolls at 90/180/365 days; in particular 30-day-old fuel data is `stale`,
29 `warning`, 60 `critical`, 14 `fresh`, and the toll boundaries behave the
same at 180/179/365/89 days. -/
theorem staleness_level_spec :
    (∀ d : ℤ,
      (getStalenessLevel "fuel_price" d = .critical ↔ 60 ≤ d) ∧
      (getStalenessLevel "fuel_price" d = .stale ↔ 30 ≤ d ∧ d < 60) ∧
      (getStalenessLevel "fuel_price" d = .warning ↔ 15 ≤ d ∧ d < 30) ∧
      (getStalenessLevel "fuel_price" d = .fresh ↔ d < 15)) ∧
    (∀ d : ℤ,
      (getStalenessLevel "toll" d = .critical ↔ 365 ≤ d) ∧
      (getStalenessLevel "toll" d = .stale ↔ 180 ≤ d ∧ d < 365) ∧
      (getStalenessLevel "toll" d = .warning ↔ 90 ≤ d ∧ d < 180) ∧
      (getStalenessLevel "toll" d = .fresh ↔ d < 90)) ∧
    getStalenessLevel "fuel_price" 30 = .stale ∧
    getStalenessLevel "fuel_price" 29 = .warning ∧
    getStalenessLevel "fuel_price" 60 = .critical ∧
    getStalenessLevel "fuel_price" 14 = .fresh ∧
    getStalenessLevel "toll" 180 = .stale ∧
    getStalenessLevel "toll" 179 = .warning ∧
    getStalenessLevel "toll" 365 = .critical ∧
    getStalenessLevel "toll" 89 = .fresh := by
  have hf : thresholdsFor "fuel_price" = fuelPriceThresholds := by decide
  have ht : thresholdsFor "toll" = tollThresholds := by decide
  refine ⟨fun d => ?_, fun d => ?_, ?_, ?_, ?_, ?_, ?_, ?_, ?_, ?_⟩
  · simp only [getStalenessLevel, hf, fuelPriceThresholds]
    split_ifs <;> simp_all <;> omega
  · simp only [getStalenessLevel, ht, tollThresholds]
    split_ifs <;> simp_all <;> omega
  all_goals decide

theorem clean_replicate_zero (m : ℕ) :
    clean_old_requests 0 (List.replicate m (0 : ℚ)) = List.replicate m 0 := by
  cases m with
  | zero => rfl
  | succ k =>
    rw [List.replicate_succ, clean_old_requests, List.dropWhile_cons]
    have h : (decide ((0 : ℚ) - 0 > 60)) = false := decide_eq_false (by norm_num)
    rw [h]
    simp

theorem is_rate_limited_replicate_lt {N m : ℕ} (h : m < N) :
    is_rate_limited N (List.replicate m (0 : ℚ)) 0 = (false, List.replicate (m + 1) 0) := by
  simp only [is_rate_limited, clean_replicate_zero]
  rw [if_neg (by rw [List.length_replicate]; omega), List.replicate_succ']

theorem is_rate_limited_replicate_full (N : ℕ) :
    is_rate_limited N (List.replicate N (0 : ℚ)) 0 = (true, List.replicate N 0) := by
  simp only [is_rate_limited, clean_replicate_zero]
  rw [if_pos (by rw [List.length_replicate])]

theorem foldl_runStep_replicate (N : ℕ) :
    ∀ (k m : ℕ) (db : List Bool), m + k ≤ N →
      List.foldl (runStep N) (db, List.replicate m (0 : ℚ)) (List.replicate k 0) =
        (db ++ List.replicate k false, List.replicate (m + k) 0)
  | 0, m, db, _ => by simp
  | k + 1, m, db, h => by
    rw [List.replicate_succ, List.foldl_cons]
    have hstep : runStep N (db, List.replicate m (0 : ℚ)) 0 =
        (db ++ [false], List.replicate (m + 1) 0) := by
      simp only [runStep, is_rate_limited_replicate_lt (show m < N by omega)]
    rw [hstep, foldl_runStep_replicate N k (m + 1) (db ++ [false]) (by omega)]
    have hm : m + 1 + k = m + (k + 1) := by omega
    rw [hm, List.append_assoc, List.singleton_append, ← List.replicate_succ]

/-- C1, counterexample: with two alternatives of total costs 10 (fastest)
and 20, the fastest route is already the cheapest, the recommendation stays
at index 0 -- and the non-recommended route keeps `savings_vs_fastest = None`
instead of receiving the delta `10 - 20` that the claim promises to every
non-recommended route. -/
theorem route_savings_counterexample :
    (optimize_route_select
      [ (⟨100000, 3600, "geom0"⟩, ⟨⟨100, 15, 15, 150, 10, "diesel_500"⟩, 0, 10, none⟩),
        (⟨120000, 4000, "geom1"⟩, ⟨⟨120, 15, 18, 150, 20, "diesel_500"⟩, 0, 20, none⟩) ]).map
      (fun res => (res.recommended_idx,
        res.routes.map (fun r => r.cost_breakdown.savings_vs_fastest),
        res.total_savings)) = some (0, [none, none], 0) ∧
    (optimize_route_select
      [ (⟨100000, 3600, "geom0"⟩, ⟨⟨100, 15, 15, 150, 10, "diesel_500"⟩, 0, 10, none⟩),
        (⟨120000, 4000, "geom1"⟩, ⟨⟨120, 15, 18, 150, 20, "diesel_500"⟩, 0, 20, none⟩) ]).map
      (fun res => (res.recommended_idx,
        res.routes.map (fun r => r.cost_breakdown.savings_vs_fastest),
        res.total_savings)) ≠ some (0, [none, some (-10)], 0) := by
  have h : (optimize_route_select
      [ (⟨100000, 3600, "geom0"⟩, ⟨⟨100, 15, 15, 150, 10, "diesel_500"⟩, 0, 10, none⟩),
        (⟨120000, 4000, "geom1"⟩, ⟨⟨120, 15, 18, 150, 20, "diesel_500"⟩, 0, 20, none⟩) ]).map
      (fun res => (res.recommended_idx,
        res.routes.map (fun r => r.cost_breakdown.savings_vs_fastest),
        res.total_savings)) = some (0, [none, none], 0) := by decide
  refine ⟨h, ?_⟩
  rw [h]
  simp

set_option maxHeartbeats 2000000 in
/-- C1, amended: for every non-empty alternative list, the recommended route
is the (first) alternative with minimum total cost, re-labeled `cheapest`;
`total_savings` equals the fastest (first) route's total cost minus the
recommended route's total cost, zero when the cheapest route IS the fastest;
and -- only when the recommended route differs from the fastest -- every
non-recommended route receives a savings-vs-fastest delta equal to the
fastest route's total cost minus that route's total cost, the deltas
remaining unset otherwise. -/
theorem route_optimization_spec :
    optimize_route_select [] = none ∧
    ∀ (rcs : List (OSRMRoute × RouteCostBreakdown)) (res : RouteOptimizationResult),
      optimize_route_select rcs = some res →
      (res.routes.map fun r => r.cost_breakdown.total_cost) =
        (rcs.map fun rc => rc.2.total_cost) ∧
      res.recommended_idx < rcs.length ∧
      ((res.routes.map fun r => r.route_type).getD res.recommended_idx "") = "cheapest" ∧
      (∀ j, j < rcs.length →
        ((rcs.map fun rc => rc.2.total_cost).getD res.recommended_idx 0) ≤
          ((rcs.map fun rc => rc.2.total_cost).getD j 0)) ∧
      res.total_savings =
        ((rcs.map fun rc => rc.2.total_cost).getD 0 0) -
          ((rcs.map fun rc => rc.2.total_cost).getD res.recommended_idx 0) ∧
      (res.recommended_idx = 0 → res.total_savings = 0) ∧
      (res.recommended_idx ≠ 0 → ∀ j, j < rcs.length → j ≠ res.recommended_idx →
        ((res.routes.map fun r => r.cost_breakdown.savings_vs_fastest).getD j none) =
          some (((rcs.map fun rc => rc.2.total_cost).getD 0 0) -
            ((rcs.map fun rc => rc.2.total_cost).getD j 0))) ∧
      (res.recommended_idx = 0 →
        (res.routes.map fun r => r.cost_breakdown.savings_vs_fastest) =
          (rcs.map fun rc => rc.2.savings_vs_fastest)) := by
  refine ⟨rfl, ?_⟩
  intro rcs res h
  cases rcs with
  | nil => simp [optimize_route_select] at h
  | cons rc0 rest =>
    have hcost_build : (buildOptimizedRoutes (rc0 :: rest)).map
        (fun r => r.cost_breakdown.total_cost) =
        ((rc0 :: rest).map fun rc => rc.2.total_cost) := by
      apply List.ext_getElem?
      intro n
      simp only [List.getElem?_map, List.getElem?_mapIdx, buildOptimizedRoutes,
        Option.map_map]
      cases (rc0 :: rest)[n]? <;> rfl
    have hlenmap : ((rc0 :: rest).map fun rc => rc.2.total_cost).length =
        (rc0 :: rest).length := List.length_map _ _
    have hfm_lt : firstMinIdx ((rc0 :: rest).map fun rc => rc.2.total_cost) <
        (rc0 :: rest).length := by
      have := firstMinIdx_lt_length ((rc0 :: rest).map fun rc => rc.2.total_cost)
        (by simp)
      omega
    simp only [optimize_route_select] at h
    rw [hcost_build] at h
    by_cases hr0 : firstMinIdx ((rc0 :: rest).map fun rc => rc.2.total_cost) = 0
    · rw [if_neg (not_not_intro hr0)] at h
      have hres := (Option.some.inj h).symm
      subst hres
      clear h
      dsimp only
      refine ⟨?_, ?_, ?_, ?_, ?_, fun _ => rfl, fun hne => absurd hr0 hne, fun _ => ?_⟩
      · apply List.ext_getElem?
        intro n
        simp only [List.getElem?_map, List.getElem?_mapIdx, buildOptimizedRoutes,
          Option.map_map]
        cases (rc0 :: rest)[n]? with
        | none => rfl
        | some a =>
          simp only [Option.map_some']
          split <;> rfl
      · exact hfm_lt
      · rw [List.getD_eq_getElem?_getD]
        simp only [buildOptimizedRoutes, List.getElem?_map, List.getElem?_mapIdx]
        rw [List.getElem?_eq_getElem hfm_lt]
        simp
      · intro j hj
        have := firstMinIdx_min ((rc0 :: rest).map fun rc => rc.2.total_cost) j
          (by omega)
        exact this
      · rw [hr0]
        simp
      · apply List.ext_getElem?
        intro n
        simp only [List.getElem?_map, List.getElem?_mapIdx, buildOptimizedRoutes,
          Option.map_map]
        cases (rc0 :: rest)[n]? with
        | none => rfl
        | some a =>
          simp only [Option.map_some']
          split <;> rfl
    · rw [if_pos hr0] at h
      have hres := (Option.some.inj h).symm
      subst hres
      clear h
      dsimp only
      refine ⟨?_, ?_, ?_, ?_, ?_, fun h0 => absurd h0 hr0, fun _ j hj hjne => ?_,
        fun h0 => absurd h0 hr0⟩
      · apply List.ext_getElem?
        intro n
        simp only [List.getElem?_map, List.getElem?_mapIdx, buildOptimizedRoutes,
          Option.map_map]
        cases (rc0 :: rest)[n]? with
        | none => rfl
        | some a =>
          simp only [Option.map_some']
          split <;> split <;> rfl
      · exact hfm_lt
      · rw [List.getD_eq_getElem?_getD]
        simp only [buildOptimizedRoutes, List.getElem?_map, List.getElem?_mapIdx]
        rw [List.getElem?_eq_getElem hfm_lt]
        simp
      · intro j hj
        exact firstMinIdx_min ((rc0 :: rest).map fun rc => rc.2.total_cost) j (by omega)
      · simp
      · rw [List.getD_eq_getElem?_getD]
        simp only [buildOptimizedRoutes, List.getElem?_map, List.getElem?_mapIdx]
        rw [List.getElem?_eq_getElem (show j < (rc0 :: rest).length by omega)]
        simp only [Option.map_some', Option.getD_some]
        rw [if_neg hjne]
        have hgetj : ((rc0 :: rest).map fun rc => rc.2.total_cost).getD j 0 =
            ((rc0 :: rest).get ⟨j, by omega⟩).2.total_cost := by
          rw [List.getD_eq_getElem?_getD, List.getElem?_map,
            List.getElem?_eq_getElem (show j < (rc0 :: rest).length by omega)]
          simp
        have hget0 : ((rc0 :: rest).map fun rc => rc.2.total_cost).getD 0 0 =
            rc0.2.total_cost := by simp
        rw [hgetj, hget0]
        split <;> rfl

/-- C1 witness: the amended theorem applied at a concrete two-alternative
input (costs 10 and 20): the recommendation keeps zero savings and is
labeled `cheapest`. -/
theorem route_optimization_spec_witness :
    (optimize_route_select
      [ (⟨100000, 3600, "geom0"⟩, ⟨⟨100, 15, 15, 150, 10, "diesel_500"⟩, 0, 10, none⟩),
        (⟨120000, 4000, "geom1"⟩, ⟨⟨120, 15, 18, 150, 20, "diesel_500"⟩, 0, 20, none⟩) ]).map
      (fun res => res.total_savings) = some 0 ∧
    (optimize_route_select
      [ (⟨100000, 3600, "geom0"⟩, ⟨⟨100, 15, 15, 150, 10, "diesel_500"⟩, 0, 10, none⟩),
        (⟨120000, 4000, "geom1"⟩, ⟨⟨120, 15, 18, 150, 20, "diesel_500"⟩, 0, 20, none⟩) ]).map
      (fun res => (res.routes.map fun r => r.route_type).getD res.recommended_idx "") =
      some "cheapest" := by
  cases ho : optimize_route_select
      [ (⟨100000, 3600, "geom0"⟩, ⟨⟨100, 15, 15, 150, 10, "diesel_500"⟩, 0, 10, none⟩),
        (⟨120000, 4000, "geom1"⟩, ⟨⟨120, 15, 18, 150, 20, "diesel_500"⟩, 0, 20, none⟩) ] with
  | none =>
    have hs : (optimize_route_select
      [ (⟨100000, 3600, "geom0"⟩, ⟨⟨100, 15, 15, 150, 10, "diesel_500"⟩, 0, 10, none⟩),
        (⟨120000, 4000, "geom1"⟩, ⟨⟨120, 15, 18, 150, 20, "diesel_500"⟩, 0, 20, none⟩)
      ]).isSome = true := by decide
    rw [ho] at hs
    simp at hs
  | some res =>
    have hidx : res.recommended_idx = 0 := by
      have hmap : (optimize_route_select
        [ (⟨100000, 3600, "geom0"⟩, ⟨⟨100, 15, 15, 150, 10, "diesel_500"⟩, 0, 10, none⟩),
          (⟨120000, 4000, "geom1"⟩, ⟨⟨120, 15, 18, 150, 20, "diesel_500"⟩, 0, 20, none⟩)
        ]).map (fun r => r.recommended_idx) = some 0 := by decide
      rw [ho] at hmap
      simpa using hmap
    obtain ⟨-, -, hlabel, -, -, hts0, -, -⟩ := route_optimization_spec.2 _ res ho
    refine ⟨?_, ?_⟩
    · simpa using hts0 hidx
    · simpa using hlabel

/-- On rejection the only state change is the purge. -/
theorem is_rate_limited_rejected_queue (N : ℕ) (q : List ℚ) (t : ℚ)
    (h : (is_rate_limited N q t).1 = true) :
    (is_rate_limited N q t).2 = clean_old_requests t q := by
  simp only [is_rate_limited] at h ⊢
  by_cases hc : N ≤ (clean_old_requests t q).length
  · rw [if_pos hc]
  · rw [if_neg hc] at h
    exact absurd h (by simp)

/-- Purging at a later time absorbs an earlier purge. -/
theorem clean_old_requests_idem (q : List ℚ) {t t' : ℚ} (h : t ≤ t') :
    clean_old_requests t' (clean_old_requests t q) = clean_old_requests t' q := by
  apply dropWhile_dropWhile
  intro x hx
  have h1 : t - x > 60 := of_decide_eq_true hx
  exact decide_eq_true (by linarith)

/-- C7: a request is rejected iff, after purging entries older than 60 s, the
queue already holds at least `requests_per_minute` entries; a rejection is an
early HTTP 429 with a `Retry-After: 60` header; over any sorted request
trace at most `N` requests are admitted within any rolling 60-second window
(in particular the 61st of 61 requests inside one window at limit 60 is
rejected); and once the window has fully elapsed the next request is
admitted. -/
theorem rate_limiter_spec :
    (∀ (N : ℕ) (q : List ℚ) (t : ℚ),
      (is_rate_limited N q t).1 = true ↔ N ≤ (clean_old_requests t q).length) ∧
    (∀ (N : ℕ) (q : List ℚ) (t : ℚ), (is_rate_limited N q t).1 = true →
      (rateLimitDispatch N q t).1 = some { status := 429, retry_after := some "60" }) ∧
    (∀ (N : ℕ) (ts : List ℚ), ts.Sorted (· ≤ ·) →
      ∀ w : ℚ, ((admittedTimes N ts).filter (inWindow w)).length ≤ N) ∧
    (runRequests 60 (List.replicate 61 (0 : ℚ))).1 =
      List.replicate 60 false ++ [true] ∧
    (∀ (N : ℕ) (q : List ℚ) (t t' : ℚ), 0 < N → (∀ x ∈ q, x ≤ t) → t + 60 < t' →
      (is_rate_limited N q t').1 = false) := by
  refine ⟨fun N q t => ?_, fun N q t h => ?_, fun N ts hts w => ?_, ?_,
    fun N q t t' hN hub hgt => ?_⟩
  · simp only [is_rate_limited]
    by_cases hc : N ≤ (clean_old_requests t q).length
    · rw [if_pos hc]
      simp [hc]
    · rw [if_neg hc]
      simp [hc]
  · simp [rateLimitDispatch, h]
  · rw [admittedTimes]
    cases ts with
    | nil => simp [runAdmitted]
    | cons t rest =>
      refine runAdmitted_window_bound N (t :: rest) [] [] t hts ?_ List.sorted_nil
        (by simp) (by simp) (by simp) w
      intro u hu
      rcases List.mem_cons.mp hu with rfl | hu
      · exact le_refl u
      · exact (List.sorted_cons.mp hts).1 u hu
  · rw [runRequests, show List.replicate 61 (0 : ℚ) = List.replicate 60 0 ++ [0] by
      rw [← List.replicate_succ'], List.foldl_append]
    have h1 := foldl_runStep_replicate 60 60 0 [] (by omega)
    simp only [List.replicate_zero, Nat.zero_add, List.nil_append] at h1
    rw [h1]
    simp only [List.foldl_cons, List.foldl_nil]
    simp only [runStep, is_rate_limited_replicate_full 60]
  · have hnil : clean_old_requests t' q = [] := by
      rw [clean_old_requests, List.dropWhile_eq_nil_iff]
      intro x hx
      have := hub x hx
      exact decide_eq_true (by linarith)
    simp only [is_rate_limited, hnil, List.length_nil]
    rw [if_neg (by omega)]

/-- C7 witness: rejection response, window bound, and recovery after the
window, at concrete inputs. -/
theorem rate_limiter_spec_witness :
    (rateLimitDispatch 1 [0] 0).1 = some { status := 429, retry_after := some "60" } ∧
    ((admittedTimes 1 [(0 : ℚ), 10]).filter (inWindow 0)).length ≤ 1 ∧
    (is_rate_limited 1 [(0 : ℚ)] 100).1 = false :=
  ⟨rate_limiter_spec.2.1 1 [0] 0
      (by have := is_rate_limited_replicate_full 1
          rw [List.replicate_one] at this
          rw [this]),
   rate_limiter_spec.2.2.1 1 [0, 10] (by simp [List.sorted_cons]) 0,
   rate_limiter_spec.2.2.2.2 1 [0] 0 100 (by decide) (by simp) (by norm_num)⟩

/-- C10: when the limiter rejects a request, the rejected timestamp is not
appended -- the only state change is the purge of entries older than 60 s --
and the resulting queue behaves identically to the unmodified queue for
every later request, so rejected requests never consume quota and never
extend the rate-limited period. -/
theorem rate_limiter_reject_stateless :
    (∀ (N : ℕ) (q : List ℚ) (t : ℚ), (is_rate_limited N q t).1 = true →
      (is_rate_limited N q t).2 = clean_old_requests t q) ∧
    (∀ (N : ℕ) (q : List ℚ) (t t' : ℚ), t ≤ t' → (is_rate_limited N q t).1 = true →
      is_rate_limited N (is_rate_limited N q t).2 t' = is_rate_limited N q t') := by
  refine ⟨is_rate_limited_rejected_queue, fun N q t t' hle h => ?_⟩
  rw [is_rate_limited_rejected_queue N q t h]
  simp only [is_rate_limited]
  rw [clean_old_requests_idem q hle]

/-- C10 witness: a rejected request (limit 1, one fresh entry) leaves the
queue equal to its purged form, and a later request behaves as if the
rejected one had never arrived. -/
theorem rate_limiter_reject_stateless_witness :
    (is_rate_limited 1 [(0 : ℚ)] 0).2 = clean_old_requests 0 [0] ∧
    is_rate_limited 1 (is_rate_limited 1 [(0 : ℚ)] 0).2 30 = is_rate_limited 1 [(0 : ℚ)] 30 :=
  ⟨rate_limiter_reject_stateless.1 1 [0] 0
      (by have := is_rate_limited_replicate_full 1
          rw [List.replicate_one] at this
          rw [this]),
   rate_limiter_reject_stateless.2 1 [0] 0 30 (by norm_num)
      (by have := is_rate_limited_replicate_full 1
          rw [List.replicate_one] at this
          rw [this])⟩

/-- C9: `analyze_routes` raises `ValueError` ("No routes provided for
analysis") on the empty route list before any scoring; but the claim that
every non-empty list yields a summary fails on the code: with two routes
whose durations differ by at least 60 s and whose best-scored route is the
fastest, `_analyze_savings` divides the `Decimal` `absolute_savings` by the
`float` `max(abs(time_trade_off), 1)` and raises `TypeError` instead of
returning a summary. -/
theorem analyze_routes_empty_and_typeerror :
    (∀ (c : OptimizationCriteria) (p : UserPreferences),
      analyze_routes [] c p = .error "ValueError: No routes provided for analysis") ∧
    analyze_routes
      [ ⟨⟨100000, 3600, "geom0"⟩, ⟨⟨100, 15, 15, 150, 100, "diesel_500"⟩, 0, 100, none⟩,
          "fastest", none⟩,
        ⟨⟨100000, 7200, "geom1"⟩, ⟨⟨120, 15, 18, 150, 200, "diesel_500"⟩, 0, 200, none⟩,
          "alternative_1", none⟩ ] .total_cost {} =
      .error "TypeError: unsupported operand type(s) for /: Decimal and float" := by
  constructor
  · intro c p
    rfl
  · have hscores : (score_routes
        [ ⟨⟨100000, 3600, "geom0"⟩, ⟨⟨100, 15, 15, 150, 100, "diesel_500"⟩, 0, 100, none⟩,
            "fastest", none⟩,
          ⟨⟨100000, 7200, "geom1"⟩, ⟨⟨120, 15, 18, 150, 200, "diesel_500"⟩, 0, 200, none⟩,
            "alternative_1", none⟩ ] .total_cost {}).map (fun s => s.total_score) =
        [0, 0.8] := by
      norm_num [score_routes, defaultWeights, adjustWeights, normalize_score, listMin,
        listMax]
    have hidx : firstMinIdx ((score_routes
        [ ⟨⟨100000, 3600, "geom0"⟩, ⟨⟨100, 15, 15, 150, 100, "diesel_500"⟩, 0, 100, none⟩,
            "fastest", none⟩,
          ⟨⟨100000, 7200, "geom1"⟩, ⟨⟨120, 15, 18, 150, 200, "diesel_500"⟩, 0, 200, none⟩,
            "alternative_1", none⟩ ] .total_cost {}).map (fun s => s.total_score)) = 0 := by
      rw [hscores]
      norm_num [firstMinIdx]
    simp only [analyze_routes, List.isEmpty_cons, Bool.false_eq_true, if_false, hidx]
    have hmap : List.mapIdx (fun i (r : OptimizedRoute) =>
        if i = 0 then { r with route_type := "recommended" } else r)
        [ ⟨⟨100000, 3600, "geom0"⟩, ⟨⟨100, 15, 15, 150, 100, "diesel_500"⟩, 0, 100, none⟩,
            "fastest", none⟩,
          ⟨⟨100000, 7200, "geom1"⟩, ⟨⟨120, 15, 18, 150, 200, "diesel_500"⟩, 0, 200, none⟩,
            "alternative_1", none⟩ ] =
        [ ⟨⟨100000, 3600, "geom0"⟩, ⟨⟨100, 15, 15, 150, 100, "diesel_500"⟩, 0, 100, none⟩,
            "recommended", none⟩,
          ⟨⟨100000, 7200, "geom1"⟩, ⟨⟨120, 15, 18, 150, 200, "diesel_500"⟩, 0, 200, none⟩,
            "alternative_1", none⟩ ] := rfl
    rw [hmap]
    have hsav : analyze_savings
        [ ⟨⟨100000, 3600, "geom0"⟩, ⟨⟨100, 15, 15, 150, 100, "diesel_500"⟩, 0, 100, none⟩,
            "recommended", none⟩,
          ⟨⟨100000, 7200, "geom1"⟩, ⟨⟨120, 15, 18, 150, 200, "diesel_500"⟩, 0, 200, none⟩,
            "alternative_1", none⟩ ] 0 =
        .error "TypeError: unsupported operand type(s) for /: Decimal and float" := by
      norm_num [analyze_savings, firstMaxIdx]
    rw [hsav]

/-- C8, counterexample: `re.match` of a `$`-anchored pattern also matches
just before a trailing newline, so the ASCII input "ABC123\n-" (whose
normalization keeps the interior newline after the hyphen is removed) is
accepted and returned as "ABC123\n"; re-validating that accepted output
strips the newline and returns "ABC123", a different string -- refuting the
claimed idempotence on accepted outputs. -/
theorem validate_license_plate_counterexample :
    validate_license_plate "ABC123\n-" = some "ABC123\n" ∧
    validate_license_plate "ABC123\n" = some "ABC123" ∧
    ("ABC123\n" : String) ≠ "ABC123" :=
  ⟨by decide, by decide, by decide⟩

/-- C8, amended: `validate_license_plate` normalizes by stripping
(Python-whitespace), uppercasing and removing spaces and hyphens, accepts
exactly the strings whose normalization matches one of the three Argentina
patterns optionally followed by one trailing newline (Python `$`
semantics), and returns the normalization on acceptance; re-validating an
accepted output returns its newline-free core, on which the function is a
fixpoint -- so idempotence holds exactly for accepted outputs not ending in
a newline ("abc-123" and "ABC123" both return "ABC123"), and "AB12" is
still rejected. -/
theorem validate_license_plate_spec :
    (∀ s n : String, validate_license_plate s = some n →
      validate_license_plate n = some (String.mk (stripTrailingNl n.toList)) ∧
      validate_license_plate (String.mk (stripTrailingNl n.toList)) =
        some (String.mk (stripTrailingNl n.toList))) ∧
    (∀ s : String, (validate_license_plate s).isSome = true ↔
      matches_plate_patterns (normalize_plate s) = true) ∧
    (∀ s n : String, validate_license_plate s = some n →
      n = String.mk (normalize_plate s)) ∧
    validate_license_plate "abc-123" = some "ABC123" ∧
    validate_license_plate "ABC123" = some "ABC123" ∧
    validate_license_plate "AB12" = none := by
  refine ⟨fun s n h => ?_, fun s => ?_, fun s n h => (validate_license_plate_some s n h).1,
    by decide, by decide, by decide⟩
  · obtain ⟨rfl, hm⟩ := validate_license_plate_some s n h
    rcases matches_plate_patterns_cases hm with hex | ⟨hlast, hex⟩
    · have hchars := plate_chars_alnum hex
      have hnotnl : ¬ (normalize_plate s).getLast? = some '\n' := by
        intro hl
        have hmem := List.mem_of_mem_getLast? hl
        have hb := alnum_toNat (hchars _ hmem)
        have h10 : ('\n').toNat = 10 := rfl
        omega
      have hstrip : stripTrailingNl (String.mk (normalize_plate s)).toList =
          normalize_plate s := by
        have hmk : (String.mk (normalize_plate s)).toList = normalize_plate s := rfl
        rw [hmk, stripTrailingNl, if_neg hnotnl]
      rw [hstrip]
      exact ⟨validate_on_matched hex, validate_on_matched hex⟩
    · have hdecomp : (normalize_plate s).dropLast ++ ['\n'] = normalize_plate s :=
        List.dropLast_append_getLast? '\n' hlast
      have hstrip : stripTrailingNl (String.mk (normalize_plate s)).toList =
          (normalize_plate s).dropLast := by
        have hmk : (String.mk (normalize_plate s)).toList = normalize_plate s := rfl
        rw [hmk, stripTrailingNl, if_pos hlast]
      rw [hstrip]
      constructor
      · conv_lhs => rw [← hdecomp]
        exact validate_on_matched_newline hex
      · exact validate_on_matched hex
  · simp only [validate_license_plate]
    split_ifs with h1 h2
    · have hnil : pyStrip s.data = [] := pyStrip_eq_nil_of_all_ws (l := s.data) h1
      have hnorm : normalize_plate s = [] := by
        simp [normalize_plate, String.toList, hnil]
      simp [hnorm, matches_plate_patterns_nil]
    · simp [h2]
    · simp [h2]

/-- C8 witness: the amended idempotence applied at "abc-123" (accepted as
"ABC123", a fixpoint) and at "ABC123\n-" (accepted as "ABC123\n", which
re-validates to its newline-free core). -/
theorem validate_license_plate_spec_witness :
    validate_license_plate "ABC123" =
      some (String.mk (stripTrailingNl ("ABC123" : String).toList)) ∧
    validate_license_plate "ABC123\n" =
      some (String.mk (stripTrailingNl ("ABC123\n" : String).toList)) :=
  ⟨(validate_license_plate_spec.1 "abc-123" "ABC123" (by decide)).1,
   (validate_license_plate_spec.1 "ABC123\n-" "ABC123\n" (by decide)).1⟩

/-- C2: `validate_tax_id` accepts iff stripping non-digits leaves exactly 11
digits whose CUIT/CUIL checksum holds (weights [5,4,3,2,7,6,5,4,3,2], sum mod
11, check digit = remainder if < 2 else 11 − remainder, compared with the
11th digit); on acceptance it returns the digits formatted XX-XXXXXXXX-X; and
flipping the last digit of an accepted input is always rejected. -/
theorem validate_tax_id_spec :
    (∀ s : String, (validate_tax_id s).isSome = true ↔
      ((s.toList.filter Char.isDigit).length = 11 ∧
       validate_cuit_algorithm (s.toList.filter Char.isDigit) = true)) ∧
    (∀ ds : List Char, ds.length = 11 →
      (validate_cuit_algorithm ds = true ↔
        digitVal (ds.getD 10 '0') =
          (let r := (List.zipWith (fun c m => digitVal c * m) (ds.take 10)
                      [5, 4, 3, 2, 7, 6, 5, 4, 3, 2]).sum % 11
           if r < 2 then r else 11 - r))) ∧
    (∀ s r : String, validate_tax_id s = some r →
      r = String.mk ((s.toList.filter Char.isDigit).take 2) ++ "-" ++
          String.mk (((s.toList.filter Char.isDigit).drop 2).take 8) ++ "-" ++
          String.mk ((s.toList.filter Char.isDigit).drop 10)) ∧
    (∀ (s : String) (d : Char),
      (validate_tax_id s).isSome = true → d.isDigit = true →
      d ≠ (s.toList.filter Char.isDigit).getD 10 '0' →
      validate_tax_id (String.mk ((s.toList.filter Char.isDigit).take 10 ++ [d])) = none) :=
  ⟨validate_tax_id_isSome_iff, cuit_algorithm_iff, validate_tax_id_format, validate_tax_id_flip⟩

/-- C2 witness: a correctly checksummed CUIT is accepted and formatted, its
checksum verifies, and flipping its last digit (6 → 5) is rejected. -/
theorem validate_tax_id_spec_witness :
    (validate_tax_id "20-12345678-6").isSome = true ∧
    validate_cuit_algorithm ("20123456786".toList) = true ∧
    "20-12345678-6" =
      String.mk (("20123456786".toList.filter Char.isDigit).take 2) ++ "-" ++
      String.mk ((("20123456786".toList.filter Char.isDigit).drop 2).take 8) ++ "-" ++
      String.mk (("20123456786".toList.filter Char.isDigit).drop 10) ∧
    validate_tax_id
      (String.mk (("20123456786".toList.filter Char.isDigit).take 10 ++ ['5'])) = none :=
  ⟨(validate_tax_id_spec.1 "20-12345678-6").mpr ⟨by decide, by decide⟩,
   (validate_tax_id_spec.2.1 "20123456786".toList (by decide)).mpr (by decide),
   validate_tax_id_spec.2.2.1 "20123456786" "20-12345678-6" (by decide),
   validate_tax_id_spec.2.2.2 "20123456786" '5' (by decide) (by decide) (by decide)⟩

/-- C4: the service-level fuel computation satisfies
`fuel_needed_liters = (distance_km / 100) * fuel_consumption` and
`fuel_cost = fuel_needed_liters * fuel_price_per_liter`; consumption
15 L/100km over 100 km at 150 ARS/L gives exactly 15 L and 2250 ARS; and the
`Vehicle` convenience method returns 0 whenever the distance is 0 or the
price per liter is ≤ 0. -/
theorem fuel_cost_spec :
    (∀ (v : Vehicle) (d p : ℚ),
      (calculate_fuel_cost d v p).fuel_needed_liters = (d / 100) * v.fuel_consumption ∧
      (calculate_fuel_cost d v p).total_fuel_cost =
        (calculate_fuel_cost d v p).fuel_needed_liters * p) ∧
    (∀ v : Vehicle, v.fuel_consumption = 15 →
      (calculate_fuel_cost 100 v 150).fuel_needed_liters = 15 ∧
      (calculate_fuel_cost 100 v 150).total_fuel_cost = 2250) ∧
    (∀ (v : Vehicle) (d p : ℚ), d = 0 ∨ p ≤ 0 → v.calculate_fuel_cost d p = 0) := by
  refine ⟨fun v d p => ⟨rfl, rfl⟩, fun v h => ?_, fun v d p h => ?_⟩
  · simp only [calculate_fuel_cost, h]
    norm_num
  · have hle : d ≤ 0 ∨ p ≤ 0 := h.imp le_of_eq id
    simp only [Vehicle.calculate_fuel_cost, if_pos hle]

/-- C4 witness: the fuel-cost theorem instantiated at a concrete vehicle
(consumption 15 L/100km) and at distance 0. -/
theorem fuel_cost_spec_witness :
    (calculate_fuel_cost 100 ⟨"Truck", 15, .diesel_500, some 20000⟩ 150).fuel_needed_liters = 15 ∧
    (calculate_fuel_cost 100 ⟨"Truck", 15, .diesel_500, some 20000⟩ 150).total_fuel_cost = 2250 ∧
    Vehicle.calculate_fuel_cost ⟨"Truck", 15, .diesel_500, some 20000⟩ 0 150 = 0 :=
  ⟨(fuel_cost_spec.2.1 ⟨"Truck", 15, .diesel_500, some 20000⟩ rfl).1,
   (fuel_cost_spec.2.1 ⟨"Truck", 15, .diesel_500, some 20000⟩ rfl).2,
   fuel_cost_spec.2.2 ⟨"Truck", 15, .diesel_500, some 20000⟩ 0 150 (Or.inl rfl)⟩

/-- C5: the toll vehicle category is `truck` iff `max_weight` is present and
strictly greater than 3500 kg (3500 itself is not a truck); otherwise
`motorcycle` iff the model name contains "moto" or "scooter"
case-insensitively; otherwise `car`. -/
theorem vehicle_category_spec :
    (∀ v : Vehicle, get_vehicle_category v = "truck" ↔
      ∃ w : ℤ, v.max_weight = some w ∧ 3500 < w) ∧
    (∀ v : Vehicle, get_vehicle_category v = "motorcycle" ↔
      (¬ (∃ w : ℤ, v.max_weight = some w ∧ 3500 < w) ∧
       (strContains (pyLower v.model) "moto" = true ∨
        strContains (pyLower v.model) "scooter" = true))) ∧
    (∀ v : Vehicle, get_vehicle_category v = "car" ↔
      (¬ (∃ w : ℤ, v.max_weight = some w ∧ 3500 < w) ∧
       ¬ (strContains (pyLower v.model) "moto" = true ∨
          strContains (pyLower v.model) "scooter" = true))) ∧
    (∀ v : Vehicle, v.max_weight = some 3500 → get_vehicle_category v ≠ "truck") ∧
    (∀ v : Vehicle, v.max_weight = some 3501 → get_vehicle_category v = "truck") := by
  have key : ∀ v : Vehicle,
      truckCond v = true ↔ ∃ w : ℤ, v.max_weight = some w ∧ 3500 < w := by
    intro v
    cases h : v.max_weight with
    | none => simp [truckCond, h]
    | some w =>
      simp only [truckCond, h, Bool.and_eq_true, decide_eq_true_eq, Option.some.injEq]
      constructor
      · rintro ⟨-, hw⟩; exact ⟨w, rfl, hw⟩
      · rintro ⟨w', hw', hgt⟩; cases hw'; exact ⟨by omega, hgt⟩
  have mkey : ∀ v : Vehicle,
      motoCond v = true ↔
      (strContains (pyLower v.model) "moto" = true ∨
       strContains (pyLower v.model) "scooter" = true) := by
    intro v
    simp [motoCond]
  refine ⟨fun v => ?_, fun v => ?_, fun v => ?_, fun v h => ?_, fun v h => ?_⟩
  · cases hb : truckCond v with
    | true =>
      refine iff_of_true ?_ ((key v).mp hb)
      simp [get_vehicle_category, hb]
    | false =>
      refine iff_of_false ?_ (fun hx => by simp [(key v).mpr hx] at hb)
      simp only [get_vehicle_category, hb, if_false, Bool.false_eq_true]
      split_ifs <;> decide
  · cases hb : truckCond v with
    | true =>
      refine iff_of_false ?_ (fun hx => hx.1 ((key v).mp hb))
      simp only [get_vehicle_category, hb, if_true]
      decide
    | false =>
      have hnx : ¬ ∃ w : ℤ, v.max_weight = some w ∧ 3500 < w :=
        fun hx => by simp [(key v).mpr hx] at hb
      cases hm : motoCond v with
      | true =>
        refine iff_of_true ?_ ⟨hnx, (mkey v).mp hm⟩
        simp [get_vehicle_category, hb, hm]
      | false =>
        refine iff_of_false ?_ (fun hx => by simp [(mkey v).mpr hx.2] at hm)
        simp only [get_vehicle_category, hb, hm, Bool.false_eq_true, if_false]
        decide
  · cases hb : truckCond v with
    | true =>
      refine iff_of_false ?_ (fun hx => hx.1 ((key v).mp hb))
      simp only [get_vehicle_category, hb, if_true]
      decide
    | false =>
      have hnx : ¬ ∃ w : ℤ, v.max_weight = some w ∧ 3500 < w :=
        fun hx => by simp [(key v).mpr hx] at hb
      cases hm : motoCond v with
      | true =>
        refine iff_of_false ?_ (fun hx => hx.2 ((mkey v).mp hm))
        simp only [get_vehicle_category, hb, hm, Bool.false_eq_true, if_true, if_false]
        decide
      | false =>
        refine iff_of_true ?_ ⟨hnx, fun hx => by simp [(mkey v).mpr hx] at hm⟩
        simp [get_vehicle_category, hb, hm]
  · intro hcat
    have hb : truckCond v = true := by
      by_contra hb'
      have hb'' : truckCond v = false := by
        cases hbe : truckCond v
        · rfl
        · exact absurd hbe hb'
      revert hcat
      simp only [get_vehicle_category, hb'', Bool.false_eq_true, if_false]
      split_ifs <;> decide
    obtain ⟨w, hw, hgt⟩ := (key v).mp hb
    rw [h] at hw
    cases hw
    omega
  · have hb : truckCond v = true := (key v).mpr ⟨3501, h, by omega⟩
    simp [get_vehicle_category, hb]

/-- C5 witness: a 3500 kg vehicle is not categorized as a truck while a
3501 kg vehicle is. -/
theorem vehicle_category_spec_witness :
    get_vehicle_category ⟨"Ford Cargo", 20, .diesel_500, some 3500⟩ ≠ "truck" ∧
    get_vehicle_category ⟨"Ford Cargo", 20, .diesel_500, some 3501⟩ = "truck" :=
  ⟨vehicle_category_spec.2.2.2.1 ⟨"Ford Cargo", 20, .diesel_500, some 3500⟩ rfl,
   vehicle_category_spec.2.2.2.2 ⟨"Ford Cargo", 20, .diesel_500, some 3501⟩ rfl⟩

/-- C3, counterexample: the permission subsystem defines 27 permission atoms,
not 24 as the claim states. -/
theorem permission_count_counterexample :
    Fintype.card Permission = 27 ∧ Fintype.card Permission ≠ 24 := by
  constructor <;> decide

/-- C3, amended: the permission subsystem defines exactly 27 permission atoms;
the admin role is granted every defined permission, and the operator role's
permission set is a strict subset consisting of read/update user, read
company, the four vehicle CRUD permissions, route calculation and route read,
fuel-price read, toll read, and report generation. -/
theorem role_permissions_spec :
    Fintype.card Permission = 27 ∧
    (∀ p : Permission, has_permission .admin p = true) ∧
    (∀ p : Permission, has_permission .operator p = true ↔
      p ∈ ([ .read_user, .update_user, .read_company,
             .create_vehicle, .read_vehicle, .update_vehicle, .delete_vehicle,
             .calculate_route, .read_route,
             .read_fuel_price, .read_toll, .generate_report ] : List Permission)) ∧
    (∃ p : Permission, has_permission .admin p = true ∧ has_permission .operator p = false) := by
  refine ⟨by decide, by decide, by decide, ?_⟩
  exact ⟨.admin_panel, by decide, by decide⟩

end TruckProof
